import Mathlib

/-!
# Verification of the TaRDIS DCR-Editor core

A shallow embedding, in Lean 4, of the parts of the DCR choreography editor
that the specification's claims concern:

* the edge store (`src/stores/edges-state.ts`): `addEdge`, `alreadyExistsEdge`,
  `onConnect`, `isValidSpawnTarget`;
* the node store (`src/stores/nodes-state.ts`, concatenated into
  `simulation-state.ts` in this source drop): the per-kind id allocator
  (`createNodeId`, `returnDeletedIds`) and the Nest/Subprocess conversions;
* the simulation engine (`src/stores/simulation-state.ts`):
  `onClickSimulationToggle`, `onNodeClickSimulation`, `updateChildEvents`;
* the DSL serializer (`src/lib/codegen.ts`): `extractData`, `writeCode`;
* the DSL parser (`src/lib/visualgen-code.ts`): `untilRegex`,
  `detectSubprocess`, `genRole`, `genGraph`, `cleanCode`, `visualGen`.

Conventions of the embedding:

* TypeScript strings are Lean `String`s; the handful of JavaScript string
  operations the source uses (`split`, `replace` with a string pattern, which
  replaces only the first occurrence, `replace` with a `/.../g` regex, `trim`,
  `endsWith`, `includes`, `charAt(0)`, `slice`) are defined below over the
  character list of the string, with JavaScript semantics.
* JavaScript numbers holding the simulation's condition/milestone counters are
  embedded as `Int` (the counters are integers and the code decrements them,
  so they can become negative when an event fires repeatedly).
* Optional object keys (`input?`, `receivers?`, `guard?`, `spawned?`) are
  embedded as `Option` fields, or as `""`/`[]` when every consumer of the key
  only tests JavaScript truthiness (noted at each field).
* Code that dereferences a possibly-`undefined` lookup result (and would throw
  a `TypeError` at run time) is embedded in `Except String`, with a distinct
  error message per dereference site.
* Purely visual fields of React-Flow nodes and edges (`position`, `zIndex`,
  `width`, `height`, `expandParent`, `extent`) and persistence/UI plumbing
  (`saveState`, `selectedElement`, documentation maps, timestamps of log
  entries) are not modelled: no claim and no modelled function reads them.
* The zustand store methods `set`/`get` are embedded by explicit state
  passing: every store method becomes a function `Store → ... → Store`.
* The two recursive text walks (`genGraph` in the parser and `writeProcess`
  in the serializer) recurse through data they slice out of their input, so
  they are embedded with an explicit fuel parameter; the entry points supply
  fuel that is ample for any input of the size the editor handles, and
  exhausted fuel surfaces as a distinct `Except` error.
-/

/-! ## JavaScript string primitives -/

/-- JavaScript `s.split(sep)` for a single-character separator:
`"".split` gives `[""]`, separators at the ends give empty fragments. -/
def jsSplitChar (sep : Char) : List Char → List (List Char)
  | [] => [[]]
  | c :: cs =>
    let rest := jsSplitChar sep cs
    if c = sep then [] :: rest
    else
      match rest with
      | [] => [[c]]
      | r :: rs => (c :: r) :: rs

/-- Split a string on a character, JavaScript style. -/
def splitStr (sep : Char) (s : String) : List String :=
  (jsSplitChar sep s.data).map String.mk

/-- `List.intercalate "\n"` written out; `joinNl [] = ""`, like `[].join`. -/
def joinNl : List String → String
  | [] => ""
  | [l] => l
  | l :: ls => l ++ "\n" ++ joinNl ls

/-- Does the pattern occur at the head of the subject? -/
def leadsWith : List Char → List Char → Bool
  | [], _ => true
  | _ :: _, [] => false
  | p :: ps, c :: cs => p = c && leadsWith ps cs

/-- JavaScript `s.startsWith(pat)`. -/
def startsWithStr (s pat : String) : Bool :=
  leadsWith pat.data s.data

/-- JavaScript `s.endsWith(pat)`. -/
def endsWithStr (s pat : String) : Bool :=
  leadsWith pat.data.reverse s.data.reverse

/-- JavaScript `s.includes(pat)` for a one-character pattern. -/
def containsChar (s : String) (c : Char) : Bool :=
  s.data.any (fun x => x = c)

/-- JavaScript `s.replace(pat, rep)` with a *string* pattern: replaces only
the first occurrence. -/
def replaceFirstList (pat rep : List Char) : List Char → List Char
  | [] => []
  | c :: cs =>
    if pat ≠ [] ∧ leadsWith pat (c :: cs) then rep ++ (c :: cs).drop pat.length
    else c :: replaceFirstList pat rep cs

def replaceFirst (s pat rep : String) : String :=
  String.mk (replaceFirstList pat.data rep.data s.data)

/-- JavaScript `s.replace(/pat/g, rep)` for a literal pattern: replaces every
(non-overlapping, leftmost-first) occurrence.  Structurally recursive on a
fuel argument so that concrete inputs evaluate inside the kernel; every step
consumes at least one subject character, so fuel equal to the subject length
(supplied by the wrapper) never runs out. -/
def replaceAllList (pat rep : List Char) : Nat → List Char → List Char
  | _, [] => []
  | 0, l => l
  | fuel + 1, c :: cs =>
    if pat ≠ [] ∧ leadsWith pat (c :: cs) then
      rep ++ replaceAllList pat rep fuel (cs.drop (pat.length - 1))
    else
      c :: replaceAllList pat rep fuel cs

def replaceAll (s pat rep : String) : String :=
  String.mk (replaceAllList pat.data rep.data s.data.length s.data)

/-- The characters JavaScript's `\s` matches (restricted to the ASCII range;
the sources never contain non-ASCII whitespace). -/
def isJsWs (c : Char) : Bool :=
  c = ' ' || c = '\t' || c = '\n' || c = '\r' || c = '\x0b' || c = '\x0c'

/-- JavaScript `s.replace(/\s/g, "")`. -/
def removeWs (s : String) : String :=
  String.mk (s.data.filter (fun c => !isJsWs c))

/-- JavaScript `s.replace(/[\r\t]/g, "")`. -/
def removeCrTab (s : String) : String :=
  String.mk (s.data.filter (fun c => !(c = '\r' || c = '\t')))

/-- JavaScript `s.replace(/\s{2,}/g, " ")`: each maximal run of two or more
whitespace characters becomes a single space.  Fueled like
`replaceAllList`; every step consumes at least one character. -/
def collapseWsList : Nat → List Char → List Char
  | _, [] => []
  | 0, l => l
  | fuel + 1, c :: cs =>
    if isJsWs c ∧ cs ≠ [] ∧ isJsWs (cs.headD 'a') then
      ' ' :: collapseWsList fuel (cs.dropWhile isJsWs)
    else c :: collapseWsList fuel cs

def collapseWs (s : String) : String :=
  String.mk (collapseWsList s.data.length s.data)

/-- JavaScript `s.trim()` (ASCII whitespace). -/
def trimJs (s : String) : String :=
  String.mk (((s.data.dropWhile isJsWs).reverse.dropWhile isJsWs).reverse)

/-- JavaScript `s.charAt(0)`: first character as a string, `""` when empty. -/
def charAt0 (s : String) : String :=
  match s.data with
  | [] => ""
  | c :: _ => String.mk [c]

/-- JavaScript `s.split(pat)` with a non-empty string pattern.  Fueled like
`replaceAllList`; every step consumes at least one character. -/
def splitSubList (pat : List Char) : Nat → List Char → List (List Char)
  | _, [] => [[]]
  | 0, _ => [[]]
  | fuel + 1, c :: cs =>
    if pat ≠ [] ∧ leadsWith pat (c :: cs) then
      [] :: splitSubList pat fuel (cs.drop (pat.length - 1))
    else
      match splitSubList pat fuel cs with
      | [] => [[c]]
      | r :: rs => (c :: r) :: rs

def splitSub (s pat : String) : List String :=
  (splitSubList pat.data s.data.length s.data).map String.mk

/-- JavaScript `a.join(", ")`. -/
def joinComma : List String → String
  | [] => ""
  | [l] => l
  | l :: ls => l ++ ", " ++ joinComma ls

/-- JavaScript `parseInt` on the strings this program feeds it: a maximal
leading run of decimal digits. The program only ever parses the numeric
suffix of a generated id (`"e12".slice(1)`), which is all digits; the `NaN`
result for a digit-free string is not modelled (it never occurs) and such a
string parses to `0` here. -/
def jsParseIntNat (s : String) : Nat :=
  ((s.data.takeWhile Char.isDigit).foldl (fun acc c => acc * 10 + (c.toNat - 48)) 0)

/-- JavaScript `a.sort((a, b) => a - b)`: some ascending sort (the engine's
algorithm is unspecified; on `Nat`, all stable ascending sorts agree). -/
def sortAsc (l : List Nat) : List Nat :=
  List.insertionSort (· ≤ ·) l

/-! ## The graph model (React-Flow nodes and edges, `src/lib/types.ts`) -/

/-- `MarkingType` (`{included, pending}`), the design-time marking. -/
structure MarkingType where
  included : Bool
  pending : Bool
  deriving DecidableEq

/-- `FieldType` (`{var, type}`), one field of a record input type. -/
structure FieldType where
  var : String
  type : String
  deriving DecidableEq

/-- `InputType`: `{type: string} | {type: "Record", record: FieldType[]}`.
The discriminated union is embedded as a `type` tag plus an optional
`record` payload; `"record" in input` becomes `record.isSome`. -/
structure InputType where
  type : String
  record : Option (List FieldType)
  deriving DecidableEq

/-- The `data` payload of a React-Flow node in this editor.  Keys that some
node kinds lack (`nestType`, `input`) are `Option`s; `expression` and
`receivers` are kept as `String`/`List String` because every reader only
tests truthiness/non-emptiness (`""`/`[]` behave as the absent key). -/
structure NodeData where
  label : String
  name : String
  /-- The event subtype tag `"i"` (input) or `"c"` (computation). -/
  type : String
  marking : MarkingType
  input : Option InputType
  expression : String
  security : String
  initiators : List String
  receivers : List String
  nestType : Option String
  children : List String
  deriving DecidableEq

/-- A React-Flow node: `id`, the node kind in `type` (`"event"`, `"nest"`,
`"subprocess"`), `parentId` (`""` when top level), the payload and the two
Boolean view flags the store logic reads. -/
structure Node where
  id : String
  type : String
  parentId : String
  data : NodeData
  selected : Bool
  hidden : Bool
  deriving DecidableEq

/-- A React-Flow edge: `id`, relation kind in `type`, endpoints, and the
`data.guard` string (`""` when absent, as in the sources). -/
structure Edge where
  id : String
  type : String
  source : String
  target : String
  guard : String
  selected : Bool
  deriving DecidableEq

/-- `SimulationMarkingType`: the run-time marking.  `spawned?` exists only on
subprocess nodes (`Option`).  `updateChildEvents` additionally writes a
`milestones` count *into the marking object* (distinct from the node-level
`data.milestones` counter); that key starts absent (`none`). -/
structure SimulationMarkingType where
  included : Bool
  pending : Bool
  executable : Bool
  executed : Bool
  spawned : Option Bool
  milestones : Option Int
  deriving DecidableEq

/-- A node of the simulation copy (`simNodes`).  Only the fields the
simulation functions read are modelled; the rest of `data` is carried
unchanged by every simulation function and is omitted.  `conditions` and
`milestones` are the per-node counters `onClickSimulationToggle` computes
into `data`. -/
structure SimNode where
  id : String
  type : String
  parentId : String
  marking : SimulationMarkingType
  conditions : Int
  milestones : Int
  hidden : Bool
  selected : Bool
  deriving DecidableEq

/-! ## The store (`RFState`), reduced to the fields the claims exercise -/

structure Store where
  nodes : List Node
  edges : List Edge
  logs : List String
  relationType : String
  nextNodeId : List Nat
  nextGroupId : List Nat
  nextSubprocessId : List Nat
  simNodes : List SimNode
  simEdges : List Edge
  simulationFlow : Bool
  deriving DecidableEq

/-- `log(message)` from the store slice: appends to the log list unless the
message is blank.  (The timestamp attached to a real log entry is not
modelled.) -/
def log (st : Store) (message : String) : Store :=
  if trimJs message = "" then st
  else { st with logs := st.logs ++ [message] }

/-! ## Edge store (`src/stores/edges-state.ts`) -/

/-- `EDGE_ERRORS.INVALID_SPAWN_TARGET`. -/
def invalidSpawnTargetMsg (source target : String) : String :=
  "Invalid spawn edge: " ++ source ++ " -> " ++ target ++
    ". Target node must be a subprocess."

/-- `EDGE_ERRORS.RELATION_EXISTS`. -/
def relationExistsMsg (source target type : String) : String :=
  "Invalid relation edge. Node " ++ source ++ " already has a " ++ type ++
    " relation with " ++ target ++ "."

/-- `generateEdgeId(type, source, target)`. -/
def generateEdgeId (type source target : String) : String :=
  charAt0 type ++ "-" ++ source ++ "-" ++ target

/-- `createEdge(type, source, target)` with no additional data (the only form
the modelled call sites use); `zIndex` is visual and not modelled. -/
def createEdge (type source target : String) : Edge :=
  { id := generateEdgeId type source target
    type := type
    source := source
    target := target
    guard := ""
    selected := false }

/-- `isValidSpawnTarget(targetNode, type)`. -/
def isValidSpawnTarget (targetNode : Node) (type : String) : Bool :=
  type != "spawn" || targetNode.type == "subprocess"

/-- `getNode(id)` from the node store. -/
def getNode (st : Store) (id : String) : Option Node :=
  st.nodes.find? (fun node => node.id == id)

/-- `alreadyExistsEdge(tempEdge)`: the Boolean answer, plus the store after
the side effect (the named rejection is logged when the edge exists). -/
def alreadyExistsEdge (st : Store) (source target type : String) :
    Bool × Store :=
  let exists2 := st.edges.any (fun edge =>
    edge.source == source && edge.target == target && edge.type == type)
  (exists2, if exists2 then log st (relationExistsMsg source target type) else st)

/-- `addEdge(edge)`: rejects a duplicate `(source, target, type)` triple (when
`type` is truthy), otherwise logs and inserts — a spawn edge at the front,
any other at the back. -/
def addEdge (st : Store) (edge : Edge) : Store :=
  if edge.type != "" ∧
      (alreadyExistsEdge st edge.source edge.target edge.type).1 then
    (alreadyExistsEdge st edge.source edge.target edge.type).2
  else
    let st1 := log st ("Added " ++ edge.type ++ " relation from " ++
      edge.source ++ " to " ++ edge.target)
    { st1 with
      edges := if edge.type == "spawn" then edge :: st1.edges
               else st1.edges ++ [edge] }

/-- `deleteEdge(edgeId)`. -/
def deleteEdge (st : Store) (edgeId : String) : Option Edge × Store :=
  match st.edges.find? (fun edge => edge.id == edgeId) with
  | none => (none, st)
  | some edgeToDelete =>
      (some edgeToDelete,
       { st with edges := st.edges.filter (fun edge => !(edge.id == edgeId)) })

/-- `onConnect(connection)`: `connection.source`/`target` are embedded as
`String` with `""` standing for `null` (both are only truthiness-tested).
The source binds `type := relationType` and destructures
`alreadyExistsEdge`'s result once into `(exists2, st1)`; here the pure call
is written out at each use of `st1`. -/
def onConnect (st : Store) (source target : String) : Store :=
  if st.relationType = "" ∨ source = "" ∨ target = "" then st
  else
    if (alreadyExistsEdge st source target st.relationType).1 then
      (alreadyExistsEdge st source target st.relationType).2
    else
      match getNode (alreadyExistsEdge st source target st.relationType).2 target with
      | none => (alreadyExistsEdge st source target st.relationType).2
      | some targetNode =>
          if !isValidSpawnTarget targetNode st.relationType then
            log (alreadyExistsEdge st source target st.relationType).2
              (invalidSpawnTargetMsg source target)
          else
            addEdge (alreadyExistsEdge st source target st.relationType).2
              (createEdge st.relationType source target)

/-! ## Node store: id allocation, deletion, type conversion
(`src/stores/nodes-state.ts`) -/

/-- The three per-kind allocator frontiers (`IdCounters`). -/
structure IdCounters where
  nextNodeId : List Nat
  nextGroupId : List Nat
  nextSubprocessId : List Nat
  deriving DecidableEq

/-- `createNodeId(type, counters)`: hands out `prefix + head(list)` and
advances the list (incrementing the frontier when the tail is empty).
`none` embeds the run-time `TypeError` for a `type` outside
`event`/`nest`/`subprocess` (`counterMap[type]` is `undefined` there).
The counter lists are maintained non-empty by the store; the head of an
empty list is read as `0` here (in JavaScript it would be `undefined`
and produce an `"eundefined"` id, which never occurs). -/
def createNodeId (type : String) (counters : IdCounters) :
    Option (String × IdCounters) :=
  let pick : List Nat → String × List Nat := fun currentCounter =>
    let head := currentCounter.headD 0
    let nexts := currentCounter.tail
    (toString head, if nexts = [] then [head + 1] else nexts)
  if type = "event" then
    let (n, c) := pick counters.nextNodeId
    some ("e" ++ n, { counters with nextNodeId := c })
  else if type = "nest" then
    let (n, c) := pick counters.nextGroupId
    some ("n" ++ n, { counters with nextGroupId := c })
  else if type = "subprocess" then
    let (n, c) := pick counters.nextSubprocessId
    some ("s" ++ n, { counters with nextSubprocessId := c })
  else none

/-- `createEventNode(node, id)`. -/
def createEventNode (node : Node) (id : String) : Node :=
  let isInputEvent := node.data.type == "i"
  { node with
    id := id
    selected := true
    data :=
      if isInputEvent then
        { node.data with
          label := id
          input := some (node.data.input.getD { type := "Unit", record := none }) }
      else
        { node.data with label := id, expression := node.data.expression } }

/-- `createSubgraphNode(node, id)`. -/
def createSubgraphNode (node : Node) (id : String) : Node :=
  { node with
    id := id
    selected := true
    data :=
      { node.data with
        label := id
        nestType := if node.type == "nest" then some "group" else node.data.nestType } }

/-- JavaScript `s.charAt(0).toUpperCase() + s.slice(1)`. -/
def capitalizeJs (s : String) : String :=
  match s.data with
  | [] => ""
  | c :: cs => String.mk (c.toUpper :: cs)

/-- `addNode(node)`: allocates an id, builds the node, logs, deselects every
other node and appends the new one.  Returns the new id with the new store;
`none` embeds the `TypeError` for an unknown node type. -/
def addNode (st : Store) (node : Node) : Option (String × Store) :=
  match createNodeId node.type
      { nextNodeId := st.nextNodeId
        nextGroupId := st.nextGroupId
        nextSubprocessId := st.nextSubprocessId } with
  | none => none
  | some (id, counters) =>
      let st1 := { st with
        nextNodeId := counters.nextNodeId
        nextGroupId := counters.nextGroupId
        nextSubprocessId := counters.nextSubprocessId }
      let (nodeToAdd, st2) :=
        if node.type == "event" then
          (createEventNode node id,
           log st1 ((if node.data.type == "i" then "Input" else "Computation") ++
             " event added: " ++ id ++ "."))
        else
          (createSubgraphNode node id,
           log st1 (capitalizeJs node.type ++ " added: " ++ id ++ "."))
      some (id,
        { st2 with
          nodes := (st2.nodes.map (fun nd => { nd with selected := false })) ++
            [nodeToAdd] })

/-- `parseInt(node.id.slice(1))`: the numeric suffix of a generated id. -/
def idSuffix (id : String) : Nat :=
  jsParseIntNat (String.mk (id.data.drop 1))

/-- `returnDeletedIds(deletedNodes)`: each kind's freed suffixes are merged
into that kind's available list and the result is re-sorted ascending. -/
def returnDeletedIds (st : Store) (deletedNodes : List Node) : Store :=
  let nodeIds := sortAsc
    (((deletedNodes.filter (fun node => node.type == "event")).map
      (fun node => idSuffix node.id)) ++ st.nextNodeId)
  let groupIds := sortAsc
    (((deletedNodes.filter (fun node => node.type == "nest")).map
      (fun node => idSuffix node.id)) ++ st.nextGroupId)
  let subprocessIds := sortAsc
    (((deletedNodes.filter (fun node => node.type == "subprocess")).map
      (fun node => idSuffix node.id)) ++ st.nextSubprocessId)
  { st with
    nextNodeId := nodeIds
    nextGroupId := groupIds
    nextSubprocessId := subprocessIds }

/-- `onNodesDelete(deletedNodes)`: logs, removes the nodes and every edge
touching them, and returns the freed id suffixes to the allocators.
(`removeDocumentation` maintains a UI map and is not modelled.) -/
def onNodesDelete (st : Store) (deletedNodes : List Node) : Store :=
  let deletedIds := deletedNodes.map (fun node => node.id)
  let st1 := log st ("Deleted nodes: " ++ joinComma deletedIds ++ ".")
  let st2 := { st1 with
    nodes := st1.nodes.filter (fun node => !(deletedIds.contains node.id))
    edges := st1.edges.filter (fun edge =>
      !(deletedIds.contains edge.source) && !(deletedIds.contains edge.target)) }
  returnDeletedIds st2 deletedNodes

/-- `convertNestToSubprocess(currentNode, updatedNode)`: takes a fresh id from
the subprocess allocator, and pushes the nest's numeric suffix onto the
*front* of the nest allocator's list. -/
def convertNestToSubprocess (st : Store) (currentNode updatedNode : Node) :
    Node × Store :=
  let subprocessId := "s" ++ toString (st.nextSubprocessId.headD 0)
  let nextNestId := idSuffix currentNode.id
  let nexts := st.nextSubprocessId.tail
  let st1 := { st with
    nextGroupId := nextNestId :: st.nextGroupId
    nextSubprocessId :=
      if nexts = [] then [st.nextSubprocessId.headD 0 + 1] else nexts }
  ({ updatedNode with
      id := subprocessId
      data := { updatedNode.data with nestType := none, label := subprocessId } },
   st1)

/-- `convertSubprocessToNest(currentNode, updatedNode)`: takes a fresh id from
the nest allocator, and pushes the subprocess's numeric suffix onto the
*front* of the subprocess allocator's list. -/
def convertSubprocessToNest (st : Store) (currentNode updatedNode : Node) :
    Node × Store :=
  let nestId := "n" ++ toString (st.nextGroupId.headD 0)
  let nextSubprocessId := idSuffix currentNode.id
  let nexts := st.nextGroupId.tail
  let st1 := { st with
    nextGroupId := if nexts = [] then [st.nextGroupId.headD 0 + 1] else nexts
    nextSubprocessId := nextSubprocessId :: st.nextSubprocessId }
  ({ updatedNode with
      id := nestId
      data := { updatedNode.data with nestType := some "group", label := nestId } },
   st1)

/-! ## Simulation engine (`src/stores/simulation-state.ts`) -/

/-- `setSimulationFlow(value)`. -/
def setSimulationFlow (st : Store) (value : Bool) : Store :=
  let st1 := log st (if value then "Simulation started." else "Simulation stopped.")
  { st1 with simulationFlow := value }

/-- The per-node body of the `nodes.map` in `onClickSimulationToggle` when
simulation is being switched on: recomputes `executable`, resets `executed`
(and `spawned` on subprocesses), caches the `conditions`/`milestones`
counters into the node data, and hides direct children of subprocesses.
`nodes`/`edges` are the store's `get().nodes`/`get().edges`. -/
def initSimNode (nodes : List Node) (edges : List Edge) (node : Node) : SimNode :=
  let marking := node.data.marking
  let isParentSub := nodes.any (fun sub =>
    sub.id == node.parentId && sub.type == "subprocess")
  { id := node.id
    type := node.type
    parentId := node.parentId
    marking :=
      { included := marking.included
        pending := marking.pending
        executable := marking.included &&
          !(edges.any (fun edge =>
            edge.target == node.id &&
              (edge.type == "condition" ||
                (edge.type == "milestone" &&
                  nodes.any (fun nd =>
                    nd.id == edge.source && nd.data.marking.pending)))))
        executed := false
        spawned := if node.type == "subprocess" then some false else none
        milestones := none }
    conditions := ((edges.filter (fun ed =>
      ed.target == node.id && ed.type != "" && ed.type == "condition")).length : Int)
    milestones := ((edges.filter (fun ed =>
      ed.target == node.id && ed.type != "" && ed.type == "milestone" &&
        nodes.any (fun nd =>
          nd.id == ed.source && nd.data.marking.pending))).length : Int)
    hidden := isParentSub
    selected := false }

/-- `onClickSimulationToggle(event)`: flips the flag; on entry it builds the
simulation copies of the nodes and edges, on exit it deselects the editor
nodes. -/
def onClickSimulationToggle (st : Store) : Store :=
  let value := !st.simulationFlow
  let st1 := setSimulationFlow st value
  if value then
    { st1 with
      simNodes := st1.nodes.map (initSimNode st1.nodes st1.edges)
      simEdges := st1.edges.map (fun edge => { edge with selected := false }) }
  else
    { st1 with nodes := st1.nodes.map (fun nd => { nd with selected := false }) }

/-- The `switch (ed.type)` cases of the `for (const ed of get().simEdges)`
loop in `onNodeClickSimulation`, once the edge has passed the guard (truthy
type, source the fired node, target the node `nd` being rebuilt): the direct
effect of the edge on the marking and counters being built for `nd`. -/
def applyEdgeAction (node nd : SimNode)
    (acc : SimulationMarkingType × Int × Int) (ed : Edge) :
    SimulationMarkingType × Int × Int :=
  let (m, conditions, milestones) := acc
  if nd.id == node.id then
    if ed.type == "response" then
      ({ m with pending := true }, conditions, milestones)
    else if ed.type == "exclude" then
      ({ m with included := false, executable := false }, conditions, milestones)
    else acc
  else
    if ed.type == "condition" then
      let conditions := conditions - 1
      ({ m with executable :=
          decide (conditions = 0) && decide (milestones = 0) && m.included },
       conditions, milestones)
    else if ed.type == "response" then
      ({ m with pending := true }, conditions, milestones)
    else if ed.type == "include" then
      ({ m with
          included := true
          executable := decide (conditions = 0) && decide (milestones = 0) },
       conditions, milestones)
    else if ed.type == "exclude" then
      ({ m with included := false, executable := false }, conditions, milestones)
    else if ed.type == "milestone" then
      let milestones := if node.marking.pending then milestones - 1 else milestones
      ({ m with executable :=
          decide (conditions = 0) && decide (milestones = 0) && m.included },
       conditions, milestones)
    else if ed.type == "spawn" then
      ({ m with spawned := some true }, conditions, milestones)
    else acc

/-- The nested `if (ed.type)` / `if (ed.source === node.id)` /
`if (ed.target === nd.id)` guard around the switch. -/
def applyEdgeEffect (node nd : SimNode)
    (acc : SimulationMarkingType × Int × Int) (ed : Edge) :
    SimulationMarkingType × Int × Int :=
  if ed.type != "" && (ed.source == node.id && ed.target == nd.id) then
    applyEdgeAction node nd acc ed
  else acc

/-- The per-node body of the `simNodes.map` in `onNodeClickSimulation`:
marks the fired node executed and non-pending, then folds the direct edge
effects over `simEdges` (the store's `get().simEdges`). -/
def fireSimNode (simEdges : List Edge) (node : SimNode) (nd : SimNode) : SimNode :=
  let start : SimulationMarkingType × Int × Int :=
    (if nd.id == node.id then
       { nd.marking with executed := true, pending := false }
     else nd.marking,
     nd.conditions, nd.milestones)
  let (newMarking, conditions, milestones) :=
    simEdges.foldl (applyEdgeEffect node nd) start
  { nd with marking := newMarking, conditions := conditions, milestones := milestones }

/-- The ids of the currently pending simulation nodes, as collected by the
first `map` of `updateChildEvents`. -/
def pendingIdsOf (simNodes : List SimNode) : List String :=
  (simNodes.filter (fun nd => nd.marking.pending)).map (fun nd => nd.id)

/-- The global milestone recount of `updateChildEvents` for the event with id
`tid`: how many `milestone` edges point at it from a currently pending
source. -/
def msRecount (edges : List Edge) (pendings : List String) (tid : String) : Nat :=
  (edges.filter (fun ed =>
    ed.target == tid && ed.type == "milestone" && pendings.contains ed.source)).length

/-- The reveal pass of `updateChildEvents`: a hidden node whose parent is a
spawned subprocess becomes visible. -/
def revealChild (simNodes : List SimNode) (nd : SimNode) : SimNode :=
  if nd.parentId != "" then
    match simNodes.find? (fun n => n.id == nd.parentId) with
    | some parent =>
        if parent.type == "subprocess" && parent.marking.spawned == some true &&
            nd.hidden then
          { nd with hidden := false }
        else nd
    | none => nd
  else nd

/-- The recount pass of `updateChildEvents`: overwrites `executable` with
`milestones == 0` (for every node, whatever its `conditions` or `included`)
and stores the recount inside the marking object. -/
def recountSimNode (edges : List Edge) (pendings : List String) (nd : SimNode) :
    SimNode :=
  let milestones := msRecount edges pendings nd.id
  { nd with marking :=
      { nd.marking with
        executable := milestones == 0
        milestones := some (milestones : Int) } }

/-- `updateChildEvents()`: collects pending ids, reveals children of spawned
subprocesses, then globally recounts milestones (over the *editor* edge list,
`get().edges`) and refreshes `executable` from the recount alone.  The
`delay(10)` the source wraps this in only sequences it after the `set` of
the direct effects; the embedding composes the two steps directly. -/
def updateChildEvents (st : Store) : Store :=
  let pendings := pendingIdsOf st.simNodes
  let updatedSimNodes :=
    (st.simNodes.map (revealChild st.simNodes)).map (recountSimNode st.edges pendings)
  { st with simNodes := updatedSimNodes }

/-- `onNodeClickSimulation(event, node)`: a no-op unless the clicked node's
marking says executable; otherwise applies the direct relation effects of the
firing and then the closure passes of `updateChildEvents`. -/
def onNodeClickSimulation (st : Store) (node : SimNode) : Store :=
  if !node.marking.executable then st
  else
    let updatedSimNodes := st.simNodes.map (fireSimNode st.simEdges node)
    updateChildEvents { st with simNodes := updatedSimNodes }

/-! ## Serializer data model (`src/lib/codegen.ts`) -/

/-- `Parameter` (`{var, type}`), a typed role parameter. -/
structure Parameter where
  var : String
  type : String
  deriving DecidableEq

/-- `Role` (`RoleParticipants`) from the roles store: `writeCode` reads
`label` and `types`. -/
structure Role where
  role : String
  label : String
  types : List Parameter
  participants : List String
  deriving DecidableEq

/-- `EventType`: an event as extracted into a `Process`. -/
structure EventType where
  id : String
  label : String
  name : String
  security : String
  input : Option InputType
  expression : Option String
  initiators : List String
  receivers : Option (List String)
  marking : MarkingType
  parent : Option String
  deriving DecidableEq

/-- `SubprocessType`. -/
structure SubprocessType where
  id : String
  label : String
  children : List String
  marking : MarkingType
  parent : Option String
  deriving DecidableEq

/-- `NestType` (a `SubprocessType` plus `nestType`; the tag is kept optional
because node data may lack it). -/
structure NestType where
  id : String
  label : String
  children : List String
  marking : MarkingType
  nestType : Option String
  parent : Option String
  deriving DecidableEq

/-- `RelationType`: note `source`/`target` hold the endpoint *labels* after
extraction. -/
structure RelationType where
  id : String
  source : String
  target : String
  type : String
  parent : Option String
  guard : Option String
  deriving DecidableEq

/-- `Process`: one scope's slice of the graph. -/
structure Process where
  events : List EventType
  relations : List RelationType
  nests : List NestType
  subprocesses : List SubprocessType
  parentProcess : String
  deriving DecidableEq

/-- `relationsMap`. -/
def relationsMap (rel : String) : Option String :=
  if rel = "condition" then some "-->*"
  else if rel = "response" then some "*-->"
  else if rel = "include" then some "-->+"
  else if rel = "exclude" then some "-->%"
  else if rel = "milestone" then some "--<>"
  else if rel = "spawn" then some "-->>"
  else none

/-- `map.get(key)` over an insertion-ordered association list (the embedding
of a JavaScript `Map`). -/
def getAssoc {α : Type} (l : List (String × α)) (k : String) : Option α :=
  (l.find? (fun p => p.1 == k)).map (fun p => p.2)

/-- `map.set(key, value)`: updates in place, or appends in insertion order. -/
def setAssoc {α : Type} (l : List (String × α)) (k : String) (v : α) :
    List (String × α) :=
  if l.any (fun p => p.1 == k) then
    l.map (fun p => if p.1 == k then (k, v) else p)
  else l ++ [(k, v)]

/-- The event projection of `extractData`.  Presence tests of the source
(`input &&`, `expression &&`, `receivers && receivers.length > 0`,
`parent &&`) become `Option`s here. -/
def toEventType (n : Node) : EventType :=
  { id := n.id
    label := n.data.label
    name := n.data.name
    security := n.data.security
    input := n.data.input
    expression := if n.data.expression ≠ "" then some n.data.expression else none
    initiators := n.data.initiators
    receivers := if n.data.receivers ≠ [] then some n.data.receivers else none
    marking := n.data.marking
    parent := if n.parentId ≠ "" then some n.parentId else none }

def toNestType (n : Node) : NestType :=
  { id := n.id
    label := n.data.label
    children := n.data.children
    marking := n.data.marking
    nestType := n.data.nestType
    parent := if n.parentId ≠ "" then some n.parentId else none }

def toSubprocessType (n : Node) : SubprocessType :=
  { id := n.id
    label := n.data.label
    children := n.data.children
    marking := n.data.marking
    parent := if n.parentId ≠ "" then some n.parentId else none }

/-- The `(label, parent)` of whichever of the three per-kind lookups found an
edge endpoint in `extractData`; `none` embeds the `TypeError` thrown when the
endpoint matches no node. -/
def findEndpoint (events : List EventType) (nests : List NestType)
    (subprocesses : List SubprocessType) (id : String) :
    Option (String × Option String) :=
  match events.find? (fun n => n.id == id) with
  | some ev => some (ev.label, ev.parent)
  | none =>
    match nests.find? (fun n => n.id == id) with
    | some nst => some (nst.label, nst.parent)
    | none =>
      match subprocesses.find? (fun n => n.id == id) with
      | some sp => some (sp.label, sp.parent)
      | none => none

/-- `extractData(nodes, edges)`: categorizes nodes, rewrites each edge into a
label-level `RelationType` owned by the scope of its source, and groups
everything into the per-scope `Process` map (insertion order: `global`,
then the nests, then the subprocesses). -/
def extractData (nodes : List Node) (edges : List Edge) :
    Except String (List (String × Process)) := do
  let events := (nodes.filter (fun n => n.type == "event")).map toEventType
  let nests := (nodes.filter (fun n => n.type == "nest")).map toNestType
  let subprocesses :=
    (nodes.filter (fun n => n.type == "subprocess")).map toSubprocessType
  let relations ← edges.mapM (fun e => do
    let sourceNode ← match findEndpoint events nests subprocesses e.source with
      | some p => Except.ok p
      | none => Except.error "TypeError: extractData source endpoint not found"
    let targetNode ← match findEndpoint events nests subprocesses e.target with
      | some p => Except.ok p
      | none => Except.error "TypeError: extractData target endpoint not found"
    Except.ok ({ id := e.id
                 source := sourceNode.1
                 target := targetNode.1
                 type := e.type
                 parent := sourceNode.2
                 guard := if e.guard ≠ "" then some e.guard else none } : RelationType))
  let parents : List (String × String) :=
    ("global", "") ::
      (nests.map (fun n => (n.id, n.parent.getD "global")) ++
       subprocesses.map (fun s => (s.id, s.parent.getD "global")))
  let step : (List (String × Process) × Bool) → String × String →
      (List (String × Process) × Bool) := fun (acc, isFirst) (idp : String × String) =>
    let (id, upParent) := idp
    let processEvents :=
      if isFirst then events.filter (fun e => e.parent = none)
      else events.filter (fun e => e.parent ≠ none && e.parent == some id)
    let processRelations :=
      if isFirst then relations.filter (fun r => r.parent = none)
      else relations.filter (fun r => r.parent ≠ none && r.parent == some id)
    let processNests :=
      if isFirst then nests.filter (fun n => n.parent = none)
      else nests.filter (fun n => n.parent ≠ none && n.parent == some id)
    let processSubprocesses :=
      if isFirst then subprocesses.filter (fun s => s.parent = none)
      else subprocesses.filter (fun s => s.parent ≠ none && s.parent == some id)
    (setAssoc acc id
      { events := processEvents
        relations := processRelations
        nests := processNests
        subprocesses := processSubprocesses
        parentProcess := upParent },
     false)
  Except.ok (parents.foldl step ([], true)).1

/-- The inner field loop of the record-input rendering in `writeCode`: every
field but the last ends in `"; "`, the last closes the brace. -/
def renderRecordFields : List FieldType → String
  | [] => ""
  | [f] => f.var ++ ":" ++ f.type ++ "\x7d"
  | f :: fs => f.var ++ ":" ++ f.type ++ "; " ++ renderRecordFields fs

/-- The role-parameter loop of `writeCode`: same shape, closing parenthesis. -/
def renderRoleTypes : List Parameter → String
  | [] => ""
  | [p] => p.var ++ ":" ++ p.type ++ ")"
  | p :: ps => p.var ++ ":" ++ p.type ++ "; " ++ renderRoleTypes ps

/-- One serialized event line of `writeProcess`. -/
def renderEvent (e : EventType) : String :=
  let base := (if e.marking.included then "" else "%") ++
    (if e.marking.pending then "!" else "") ++
    "(" ++ e.label ++ ":" ++ e.name ++ ") (" ++ e.security ++ ") ["
  let middle :=
    match e.input with
    | some input =>
        "?" ++
          (if input.type ≠ "Unit" then
            ":" ++ (match input.record with
                    | some record => "\x7b" ++ renderRecordFields record
                    | none => input.type)
          else "")
    | none => match e.expression with
              | some expr => expr
              | none => ""
  base ++ middle ++ "] [" ++ joinComma e.initiators ++
    (match e.receivers with
     | some receivers => " -> " ++ joinComma receivers ++ "]"
     | none => "]")

/-- JavaScript `a.join(sep)`. -/
def joinWith (sep : String) : List String → String
  | [] => ""
  | [l] => l
  | l :: ls => l ++ sep ++ joinWith sep ls

/-- `writeProcess(process, numTabs)` from `writeCode`: events, a `";"`
separator when relations exist, then the relations — a spawn relation
recursing into the target subprocess's scope.  The fuel bounds the recursion
depth (in the source it is bounded by the acyclic parent structure); it is
never exhausted for the inputs evaluated here.  Returns the emitted lines
and the updated `eventMap`. -/
def writeProcess (fuel : Nat) (parentProcess : List (String × Process))
    (process : Process) (numTabs : Nat) (eventMap : List (String × String)) :
    List String × List (String × String) :=
  match fuel with
  | 0 => ([], eventMap)
  | fuel + 1 =>
    let (newContent, em1) := process.events.foldl
      (fun (acc : List String × List (String × String)) e =>
        let eventContent := renderEvent e
        (acc.1 ++ [eventContent], setAssoc acc.2 e.id eventContent))
      ([], eventMap)
    let newContent :=
      if process.relations.length > 0 then newContent ++ [";"] else newContent
    process.relations.foldl
      (fun (acc : List String × List (String × String)) r =>
        let opStr := (relationsMap r.type).getD "undefined"
        if r.type == "spawn" then
          let acc1 := (acc.1 ++ [r.source ++ " " ++ opStr ++ " \x7b"], acc.2)
          match getAssoc parentProcess r.target with
          | some childProcess =>
              let tabs := String.mk (List.replicate numTabs '\t')
              let (childLines, em2) :=
                writeProcess fuel parentProcess childProcess (numTabs + 1) acc1.2
              (acc1.1 ++ ["\t" ++ joinWith ("\n" ++ tabs) childLines] ++ ["\x7d"],
               em2)
          | none => acc1
        else
          (acc.1 ++
            [r.source ++ " " ++ opStr ++ " " ++ r.target ++
              (match r.guard with
               | some guard => " [" ++ guard ++ "]"
               | none => "")],
           acc.2))
      (newContent, em1)

/-- `writeCode(nodes, edges, roles, lattice)`: role declarations, the
lattice, then the recursively written global process.  Produces the
`(eventMap, code)` pair; `Except` carries the `TypeError` of `extractData`
on a dangling edge endpoint. -/
def writeCode (nodes : List Node) (edges : List Edge) (roles : List Role)
    (lattice : String) : Except String (List (String × String) × String) := do
  let parentProcess ← extractData nodes edges
  let rolesContent := roles.map (fun role =>
    role.label ++ (if role.types.length > 0 then "(" ++ renderRoleTypes role.types else ""))
  let content := rolesContent ++ [";", lattice, ";"]
  let (content, eventMap) :=
    match getAssoc parentProcess "global" with
    | some globalProcess =>
        let (lines, em) :=
          writeProcess (parentProcess.length + 1) parentProcess globalProcess 1 []
        (content ++ [joinWith "\n" lines], em)
    | none => (content, [])
  Except.ok (eventMap, joinWith "\n" content)

/-! ## Parser (`src/lib/visualgen-code.ts`) -/

/-- `untilRegex(code, regex)`: strips `\r`/`\t` characters, then consumes
lines until the separator line (or an empty line, which JavaScript's
truthiness test also stops at, or exhaustion); the stopping line is
consumed.  Returns the consumed prefix and the re-joined remainder. -/
def takeUntilStop (sep : String) : List String → List String × List String
  | [] => ([], [])
  | l :: ls =>
    if l = "" ∨ l = sep then ([], ls)
    else
      let (a, b) := takeUntilStop sep ls
      (l :: a, b)

def untilRegex (code : String) (regex : String) : List String × String :=
  let (part, rest) := takeUntilStop regex (splitStr '\n' (removeCrTab code))
  (part, joinNl rest)

/-- The line walk of `detectSubprocess`: collects lines while tracking
`{`/`}` nesting depth, stopping at (and consuming) the unmatched closing
brace — or at an empty line (JavaScript truthiness), or at exhaustion. -/
def detectSubLoop (jump : Nat) : List String → List String × List String
  | [] => ([], [])
  | l :: ls =>
    if l = "" then ([], ls)
    else if endsWithStr l "\x7b" then
      let (a, b) := detectSubLoop (jump + 1) ls
      (l :: a, b)
    else if l = "\x7d" then
      if jump > 0 then
        let (a, b) := detectSubLoop (jump - 1) ls
        (l :: a, b)
      else ([], ls)
    else
      let (a, b) := detectSubLoop jump ls
      (l :: a, b)

def detectSubprocess (code : String) : List String × String :=
  let (part, rest) := detectSubLoop 0 (splitStr '\n' code)
  (part, joinNl rest)

/-- `genRole(role)`: first space deleted, first parentheses pair turned into
a single separating space, whitespace runs collapsed, then label and
parameter list split apart. -/
def genRole (role : String) : Role :=
  let s := collapseWs (replaceFirst (replaceFirst (replaceFirst role " " "") "(" " ") ")" "")
  let parts := splitStr ' ' s
  let roleLabel := parts.headD ""
  let params : List Parameter :=
    match parts.get? 1 with
    | some roleParams =>
        if roleParams ≠ "" then
          (splitStr ';' roleParams).map (fun param =>
            let kv := splitStr ':' param
            { var := kv.headD "", type := (kv.get? 1).getD "" })
        else []
    | none => []
  { role := roleLabel, label := roleLabel, types := params, participants := [] }

/-- `(l.takeWhile (· ≠ stop), l.dropWhile (· ≠ stop))`: the characters of one
`[^X]+` capture group and what follows it. -/
def spanNot (stop : Char) (l : List Char) : List Char × List Char :=
  (l.takeWhile (fun c => c ≠ stop), l.dropWhile (fun c => c ≠ stop))

/-- A match of `eventRegex` = `/\(([^)]+)\) \(([^)]+)\) \[([^\]]+)\] \[([^\]]+)\]/`
anchored at the head of the character list.  Each `[^X]+` group is forced to
its maximal run (shortening a run would place a non-`X` character where the
pattern requires `X`, so the backtracking regex engine agrees). -/
def matchEvAt (l : List Char) : Option (String × String × String × String) :=
  match l with
  | '(' :: r1 =>
    let (g1, r2) := spanNot ')' r1
    if g1 = [] then none
    else
      match r2 with
      | ')' :: ' ' :: '(' :: r3 =>
        let (g2, r4) := spanNot ')' r3
        if g2 = [] then none
        else
          match r4 with
          | ')' :: ' ' :: '[' :: r5 =>
            let (g3, r6) := spanNot ']' r5
            if g3 = [] then none
            else
              match r6 with
              | ']' :: ' ' :: '[' :: r7 =>
                let (g4, r8) := spanNot ']' r7
                if g4 = [] then none
                else
                  match r8 with
                  | ']' :: _ =>
                      some (String.mk g1, String.mk g2, String.mk g3, String.mk g4)
                  | _ => none
              | _ => none
          | _ => none
      | _ => none
  | _ => none

/-- `eventRegex.exec(ev)`: the leftmost match (the engine retries the pattern
at each successive start position). -/
def execEventRegex : List Char → Option (String × String × String × String)
  | [] => none
  | c :: cs =>
    match matchEvAt (c :: cs) with
    | some r => some r
    | none => execEventRegex cs

/-- One iteration of the event-building `forEach` in `genGraph`: a line that
matches `eventRegex` (with all four groups non-empty after whitespace
cleanup) becomes an event node with the next generated id; any other line is
skipped silently. -/
def genEventStep (parentId : Option String) (acc : List Node × Nat) (ev : String) :
    List Node × Nat :=
  match execEventRegex ev.data with
  | none => acc
  | some (m1, m2, m3, m4) =>
    let eventInfo := removeWs m1
    let ifc := removeWs m2
    let typeInfo := removeWs m3
    let initRecv := replaceFirst m4 " -> " "->"
    if eventInfo ≠ "" ∧ ifc ≠ "" ∧ typeInfo ≠ "" ∧ initRecv ≠ "" then
      let (nodes, nodeId) := acc
      let marking : MarkingType :=
        { included := !containsChar ev '%', pending := containsChar ev '!' }
      let labelName :=
        splitStr ':' (replaceFirst (replaceFirst eventInfo "!" "") "%" "")
      let label := labelName.headD ""
      let name := (labelName.get? 1).getD ""
      let (type, input, expression) :=
        if charAt0 typeInfo = "?" then
          let inputStr := String.mk (typeInfo.data.drop 2)
          if inputStr ≠ "" then
            if charAt0 inputStr = "\x7b" then
              let fields := splitStr ';'
                (replaceFirst (replaceFirst inputStr "\x7b" "") "\x7d" "")
              let recordFields : List FieldType := fields.map (fun field =>
                let kv := splitStr ':' field
                { var := kv.headD "", type := (kv.get? 1).getD "" })
              ("i", some ({ type := "Record", record := some recordFields } : InputType), "")
            else ("i", some ({ type := inputStr, record := none } : InputType), "")
          else ("i", some ({ type := "Unit", record := none } : InputType), "")
        else ("c", none, typeInfo)
      let ir := replaceFirst (replaceFirst initRecv "[" "") "]" ""
      let irParts := splitSub ir "->"
      let initiators := splitStr ',' (irParts.headD "")
      let receivers :=
        match irParts.get? 1 with
        | some receivers => if receivers ≠ "" then splitStr ',' receivers else []
        | none => []
      let node : Node :=
        { id := "e" ++ toString nodeId
          type := "event"
          parentId := parentId.getD ""
          data :=
            { label := label
              name := name
              type := type
              marking := marking
              input := input
              expression := expression
              security := ifc
              initiators := initiators
              receivers := receivers
              nestType := none
              children := [] }
          selected := false
          hidden := false }
      (nodes ++ [node], nodeId + 1)
    else acc

/-- The label lookup shared by the spawn-trigger and relation-endpoint
resolution in `genGraph`: inside a subprocess, an event of the current scope
shadows the global search; `none` embeds the `TypeError` of dereferencing a
failed `nodes.find(...)`. -/
def lookupLabelId (nodes : List Node) (parentId : Option String) (lbl : String) :
    Option String :=
  match parentId with
  | some p =>
      if nodes.any (fun ev => ev.data.label == lbl && ev.parentId == p) then
        (nodes.find? (fun ev => ev.data.label == lbl && ev.parentId == p)).map
          (fun ev => ev.id)
      else (nodes.find? (fun ev => ev.data.label == lbl)).map (fun ev => ev.id)
  | none => (nodes.find? (fun ev => ev.data.label == lbl)).map (fun ev => ev.id)

/-- The operator table of the relation branch of `genGraph`; an unknown
operator leaves `type` as `""`. -/
def relationOpType (tp : String) : String :=
  if tp = "-->*" then "condition"
  else if tp = "*-->" then "response"
  else if tp = "-->+" then "include"
  else if tp = "-->%" then "exclude"
  else if tp = "--<>" then "milestone"
  else ""

mutual

/-- `genGraph(code, parentId?, nds?, eds?)`: parses the events of the current
scope up to the `";"` separator, then walks the remaining lines —
recursing into a fresh subprocess scope at each spawn block (a line ending
in `{`), and expanding each relation line into the Cartesian product of its
comma-separated sources and targets.  The module-level `nodeId`/`subId`
counters are threaded explicitly; the fuel only bounds the walk (the source
loop consumes its input), and is ample at every call site. -/
def genGraph (fuel : Nat) (code : String) (parentId : Option String)
    (nds : List Node) (eds : List Edge) (nodeId subId : Nat) :
    Except String (List Node × List Edge × Nat × Nat) :=
  match fuel with
  | 0 => Except.error "out of fuel"
  | fuel + 1 =>
    let (part, codeRest) := untilRegex code ";"
    let (nodes, nodeId1) := part.foldl (genEventStep parentId) (nds, nodeId)
    genGraphLoop fuel (splitStr '\n' (removeCrTab codeRest)) parentId nodes eds
      nodeId1 subId

/-- The `while (str.length > 0)` loop of `genGraph` over the relation/spawn
section. -/
def genGraphLoop (fuel : Nat) (str : List String) (parentId : Option String)
    (nodes : List Node) (edges : List Edge) (nodeId subId : Nat) :
    Except String (List Node × List Edge × Nat × Nat) :=
  match fuel with
  | 0 => Except.error "out of fuel"
  | fuel + 1 =>
    match str with
    | [] => Except.ok (nodes, edges, nodeId, subId)
    | line :: rest =>
      if line = "" then genGraphLoop fuel rest parentId nodes edges nodeId subId
      else if endsWithStr line "\x7b" then
        match lookupLabelId nodes parentId ((splitStr ' ' line).headD "") with
        | none => Except.error "TypeError: spawn trigger label not found"
        | some triggerId =>
          let subprocessId := "s" ++ toString subId
          let sub : Node :=
            { id := subprocessId
              type := "subprocess"
              parentId := parentId.getD ""
              data :=
                { label := subprocessId
                  name := ""
                  type := ""
                  marking := { included := true, pending := false }
                  input := none
                  expression := ""
                  security := ""
                  initiators := []
                  receivers := []
                  nestType := none
                  children := [] }
              selected := false
              hidden := false }
          let edge : Edge :=
            { id := "s-" ++ triggerId ++ "-" ++ subprocessId
              type := "spawn"
              source := triggerId
              target := subprocessId
              guard := ""
              selected := false }
          let (part2, code2) := detectSubprocess (joinNl rest)
          match genGraph fuel (joinNl part2) (some subprocessId) nodes edges
              nodeId (subId + 1) with
          | Except.error e => Except.error e
          | Except.ok (genNodes, genEdges, nodeId2, subId2) =>
              genGraphLoop fuel
                (if code2 ≠ "" then splitStr '\n' code2 else [""])
                parentId (sub :: genNodes) (edge :: genEdges) nodeId2 subId2
      else
        let toks := splitStr ' ' (collapseWs (replaceAll line ", " ","))
        let src := toks.headD ""
        let tp := (toks.get? 1).getD ""
        match toks.get? 2 with
        | none => Except.error "TypeError: relation line has no target"
        | some tgt =>
          match (splitStr ',' src).mapM (fun sr =>
              match lookupLabelId nodes parentId sr with
              | some i => Except.ok i
              | none =>
                  Except.error "TypeError: relation source label not found") with
          | Except.error e => Except.error e
          | Except.ok sources =>
            match (splitStr ',' tgt).mapM (fun tg =>
                match lookupLabelId nodes parentId tg with
                | some i => Except.ok i
                | none =>
                    Except.error "TypeError: relation target label not found") with
            | Except.error e => Except.error e
            | Except.ok targets =>
              let type := relationOpType tp
              let newEdges := sources.foldl (fun acc source =>
                acc ++ targets.map (fun target =>
                  ({ id := charAt0 type ++ "-" ++ source ++ "-" ++ target
                     type := type
                     source := source
                     target := target
                     guard := ""
                     selected := false } : Edge))) []
              genGraphLoop fuel rest parentId nodes (edges ++ newEdges)
                nodeId subId

end

/-- `cleanCode(code)`: deletes `"\r\t"` pairs, drops blank and `//` comment
lines, trims the rest. -/
def cleanCode (code : String) : String :=
  joinNl ((splitStr '\n' (replaceAll code "\r\t" "")).filterMap (fun line =>
    if line ≠ "" ∧ trimJs line ≠ "" ∧ ¬startsWithStr line "//" then
      some (trimJs line)
    else none))

/-- The result record of `visualGen`. -/
structure VisualGenResult where
  roles : List Role
  security : String
  nodes : List Node
  edges : List Edge
  deriving DecidableEq

/-- `visualGen(code)`: roles up to the first `";"` line, the security lattice
up to the second, then the graph; the `nodeId`/`subId` counters restart at
zero.  The fuel handed to `genGraph` exceeds the number of lines any walk
can take and is never exhausted on inputs this development evaluates. -/
def visualGen (code : String) : Except String VisualGenResult :=
  let r1 := untilRegex (cleanCode code) ";"
  let roles := r1.1.map genRole
  let r2 := untilRegex r1.2 ";"
  let security := joinNl r2.1
  match genGraph (code.length + 10) r2.2 none [] [] 0 0 with
  | Except.error e => Except.error e
  | Except.ok (nodes, edges, _, _) =>
      Except.ok { roles := roles, security := security, nodes := nodes, edges := edges }

/-! ## The relation-kind duplication invariant (spec §3/§4.1) -/

/-- The six DCR relation kinds. -/
def relationKinds : List String :=
  ["condition", "response", "include", "exclude", "milestone", "spawn"]

/-- How many edges carry exactly this `(source, target, type)` triple. -/
def tripleCount (edges : List Edge) (source target type : String) : Nat :=
  edges.countP (fun edge =>
    edge.source == source && edge.target == target && edge.type == type)

/-- The Boolean test inside `alreadyExistsEdge`. -/
def tripleExists (edges : List Edge) (source target type : String) : Bool :=
  edges.any (fun edge =>
    edge.source == source && edge.target == target && edge.type == type)

/-- The spec's invariant: at most one relation of a given kind between an
ordered `(source, target)` pair. -/
def edgeKindInvariant (edges : List Edge) : Prop :=
  ∀ e ∈ edges, e.type ∈ relationKinds →
    tripleCount edges e.source e.target e.type ≤ 1

/-! ## The marking property claimed for the state after a firing (C2) -/

/-- The claimed post-firing invariant: every simulation node stores the
up-to-date milestone recount in its `data.milestones` counter, and its
`executable` flag equals `conditions == 0 && milestones == 0 && included`. -/
def claimedPostFiringInvariant (st : Store) : Prop :=
  ∀ T ∈ st.simNodes,
    T.milestones = ((msRecount st.edges (pendingIdsOf st.simNodes) T.id : Nat) : Int) ∧
    T.marking.executable =
      (decide (T.conditions = 0) && decide (T.milestones = 0) && T.marking.included)

/-! ## The allocation scenario of the spec's allocator-reuse property (C8) -/

/-- `N` successive event-id allocations through `createNodeId`, returning the
handed-out ids and the final `nextNodeId` list. -/
def allocEventIds : Nat → List Nat → List String × List Nat
  | 0, c => ([], c)
  | n + 1, c =>
    match createNodeId "event"
        { nextNodeId := c, nextGroupId := [], nextSubprocessId := [] } with
    | some (id, c1) =>
        let (ids, cf) := allocEventIds n c1.nextNodeId
        (id :: ids, cf)
    | none => ([], c)

/-- The store's three allocator lists, packed for `createNodeId`. -/
def storeCounters (st : Store) : IdCounters :=
  { nextNodeId := st.nextNodeId
    nextGroupId := st.nextGroupId
    nextSubprocessId := st.nextSubprocessId }

/-! ## Concrete fixtures used by witnesses and counterexamples -/

/-- A minimal input event node, as the editor creates it. -/
def sampleEvent (id : String) : Node :=
  { id := id
    type := "event"
    parentId := ""
    data :=
      { label := id
        name := id
        type := "i"
        marking := { included := true, pending := false }
        input := some { type := "Unit", record := none }
        expression := ""
        security := "Public"
        initiators := ["P"]
        receivers := []
        nestType := none
        children := [] }
    selected := false
    hidden := false }

/-- A store holding the given graph, with everything else at its defaults. -/
def sampleStore (nodes : List Node) (edges : List Edge) : Store :=
  { nodes := nodes
    edges := edges
    logs := []
    relationType := ""
    nextNodeId := [3]
    nextGroupId := [0]
    nextSubprocessId := [0]
    simNodes := []
    simEdges := []
    simulationFlow := false }

/-- A bare relation edge between two node ids. -/
def sampleRelation (type source target : String) : Edge :=
  { id := charAt0 type ++ "-" ++ source ++ "-" ++ target
    type := type
    source := source
    target := target
    guard := ""
    selected := false }

/-- A minimal nest node, as the editor creates it. -/
def nestNode (id : String) : Node :=
  { id := id
    type := "nest"
    parentId := ""
    data :=
      { label := id
        name := ""
        type := ""
        marking := { included := true, pending := false }
        input := none
        expression := ""
        security := ""
        initiators := []
        receivers := []
        nestType := some "group"
        children := [] }
    selected := false
    hidden := false }

/-- Fixture for the simulation claims: three events with one Condition
relation `e1 → e2`. -/
def c2Store : Store :=
  sampleStore [sampleEvent "e0", sampleEvent "e1", sampleEvent "e2"]
    [sampleRelation "condition" "e1" "e2"]

/-- Fixture for the exclusion claim: one event with a self-Exclude. -/
def c3Store : Store :=
  sampleStore [sampleEvent "e0"] [sampleRelation "exclude" "e0" "e0"]

/-- Fixture for the condition-blocks-firing claim: `e0 --Condition--> e1`. -/
def c5Store : Store :=
  sampleStore [sampleEvent "e0", sampleEvent "e1"]
    [sampleRelation "condition" "e0" "e1"]

/-- Fixture for the duplicate-rejection claim: the Condition `e0 → e1`
already present. -/
def c6Store : Store :=
  sampleStore [sampleEvent "e0", sampleEvent "e1"]
    [sampleRelation "condition" "e0" "e1"]

/-- Fixture for the spawn-target claims: two events, no edges. -/
def c7Store : Store :=
  sampleStore [sampleEvent "e0", sampleEvent "e1"] []

/-- The spawn-target fixture with the palette set to the spawn relation. -/
def c7wStore : Store :=
  { c7Store with relationType := "spawn" }

/-- A store whose event allocator sits at frontier `[1]` (the state after
one allocation from a fresh allocator). -/
def c8wStore : Store :=
  { sampleStore [] [] with nextNodeId := [1] }

/-- A store whose nest allocator already holds a freed suffix: nests `n1`
exists, `n0` was deleted (`nextGroupId = [0, 2]`). -/
def c9Store : Store :=
  { sampleStore [nestNode "n1"] [] with nextGroupId := [0, 2] }

/-- The simulation node of `e0` right after entering simulation on a store
where `e0` is unblocked (what `initSimNode` yields for it). -/
def simE0 : SimNode :=
  { id := "e0"
    type := "event"
    parentId := ""
    marking :=
      { included := true
        pending := false
        executable := true
        executed := false
        spawned := none
        milestones := none }
    conditions := 0
    milestones := 0
    hidden := false
    selected := false }

/-- The simulation node of `e2` in `c2Store` after `e0` fires: its
condition counter is still 1, yet the closure pass has set `executable`. -/
def simE2After : SimNode :=
  { id := "e2"
    type := "event"
    parentId := ""
    marking :=
      { included := true
        pending := false
        executable := true
        executed := false
        spawned := none
        milestones := some 0 }
    conditions := 1
    milestones := 0
    hidden := false
    selected := false }

instance (st : Store) : Decidable (claimedPostFiringInvariant st) :=
  List.decidableBAll _ st.simNodes

deriving instance DecidableEq for Except

/-- Fixture for the round-trip claim: two Unit-input events and one guarded
Condition relation, with one parameterless role. -/
def nsC1 : List Node :=
  [ { id := "e0"
      type := "event"
      parentId := ""
      data :=
        { label := "e0"
          name := "n0"
          type := "i"
          marking := { included := true, pending := false }
          input := some { type := "Unit", record := none }
          expression := ""
          security := "Public"
          initiators := ["P"]
          receivers := []
          nestType := none
          children := [] }
      selected := false
      hidden := false },
    { id := "e1"
      type := "event"
      parentId := ""
      data :=
        { label := "e1"
          name := "n1"
          type := "i"
          marking := { included := true, pending := false }
          input := some { type := "Unit", record := none }
          expression := ""
          security := "Public"
          initiators := ["P"]
          receivers := []
          nestType := none
          children := [] }
      selected := false
      hidden := false } ]

/-- The guarded condition relation of the round-trip fixture. -/
def esC1 : List Edge :=
  [ { id := "c-e0-e1"
      type := "condition"
      source := "e0"
      target := "e1"
      guard := "x>0"
      selected := false } ]

def rolesC1 : List Role :=
  [ { role := "P", label := "P", types := [], participants := [] } ]

/-! # Lemmas and theorems -/

/-! ## Store-projection helpers -/

theorem log_nodes (st : Store) (m : String) : (log st m).nodes = st.nodes := by
  unfold log; split <;> rfl

theorem log_edges (st : Store) (m : String) : (log st m).edges = st.edges := by
  unfold log; split <;> rfl

theorem log_simNodes (st : Store) (m : String) :
    (log st m).simNodes = st.simNodes := by
  unfold log; split <;> rfl

theorem log_simEdges (st : Store) (m : String) :
    (log st m).simEdges = st.simEdges := by
  unfold log; split <;> rfl

theorem mem_dropWhile_of_neg {α : Type} (p : α → Bool) (l : List α) (c : α)
    (hc : c ∈ l) (hp : p c = false) : c ∈ l.dropWhile p := by
  induction l with
  | nil => cases hc
  | cons x xs ih =>
      rw [List.dropWhile_cons]
      by_cases hx : p x = true
      · rw [if_pos hx]
        rcases List.mem_cons.1 hc with rfl | hmem
        · rw [hp] at hx; cases hx
        · exact ih hmem
      · rw [if_neg hx]
        exact hc

/-- A string containing a non-whitespace character does not trim to `""`
(so `log` records it). -/
theorem trimJs_ne_empty (s : String) (c : Char) (hc : c ∈ s.data)
    (hp : isJsWs c = false) : trimJs s ≠ "" := by
  intro h
  have hdata : (((s.data.dropWhile isJsWs).reverse.dropWhile isJsWs).reverse) = [] := by
    have := congrArg String.data h
    simpa [trimJs] using this
  have h1 : c ∈ s.data.dropWhile isJsWs := mem_dropWhile_of_neg _ _ _ hc hp
  have h2 : c ∈ (s.data.dropWhile isJsWs).reverse := List.mem_reverse.2 h1
  have h3 : c ∈ (s.data.dropWhile isJsWs).reverse.dropWhile isJsWs :=
    mem_dropWhile_of_neg _ _ _ h2 hp
  have h4 : c ∈ ((s.data.dropWhile isJsWs).reverse.dropWhile isJsWs).reverse :=
    List.mem_reverse.2 h3
  rw [hdata] at h4
  cases h4

theorem mem_data_append_left (u v : String) (c : Char) (h : c ∈ u.data) :
    c ∈ (u ++ v).data := by
  rw [String.data_append]
  exact List.mem_append_left _ h

/-- `log` appends any message containing a non-whitespace character. -/
theorem log_logs_of_mem (st : Store) (m : String) (c : Char)
    (hc : c ∈ m.data) (hw : isJsWs c = false) :
    (log st m).logs = st.logs ++ [m] := by
  unfold log
  rw [if_neg (trimJs_ne_empty m c hc hw)]

theorem relationExistsMsg_mem_I (s t ty : String) :
    'I' ∈ (relationExistsMsg s t ty).data := by
  unfold relationExistsMsg
  apply mem_data_append_left
  apply mem_data_append_left
  apply mem_data_append_left
  apply mem_data_append_left
  apply mem_data_append_left
  apply mem_data_append_left
  decide

theorem invalidSpawnTargetMsg_mem_I (s t : String) :
    'I' ∈ (invalidSpawnTargetMsg s t).data := by
  unfold invalidSpawnTargetMsg
  apply mem_data_append_left
  apply mem_data_append_left
  apply mem_data_append_left
  apply mem_data_append_left
  decide

/-- A generic fact about guarded folds: edges failing the guard are skipped,
so the fold equals the fold of the actions over the filtered list. -/
theorem foldl_guard {α β : Type} (p : α → Bool) (f : β → α → β) (l : List α)
    (b : β) :
    l.foldl (fun acc a => if p a then f acc a else acc) b =
      (l.filter p).foldl f b := by
  induction l generalizing b with
  | nil => rfl
  | cons x xs ih =>
      rw [List.foldl_cons, List.filter_cons]
      by_cases hx : p x = true
      · rw [if_pos hx, if_pos hx, List.foldl_cons]
        exact ih (f b x)
      · rw [if_neg hx, if_neg hx]
        exact ih b

/-- The direct-effects fold of a firing, restricted to the edges that pass
the guard (truthy type, source the fired node, target the rebuilt node). -/
theorem foldl_applyEdgeEffect (node nd : SimNode)
    (start : SimulationMarkingType × Int × Int) (l : List Edge) :
    l.foldl (applyEdgeEffect node nd) start =
      (l.filter (fun ed =>
        ed.type != "" && (ed.source == node.id && ed.target == nd.id))).foldl
        (applyEdgeAction node nd) start := by
  have h : applyEdgeEffect node nd = fun acc ed =>
      if ed.type != "" && (ed.source == node.id && ed.target == nd.id) then
        applyEdgeAction node nd acc ed
      else acc := by
    funext acc ed
    rfl
  rw [h, foldl_guard]

/-- `find?` by id through an id-preserving map. -/
theorem find?_map_of_id {α β : Type} (f : α → β) (l : List α)
    (q : β → Bool) (p : α → Bool) (h : ∀ a, q (f a) = p a) :
    (l.map f).find? q = (l.find? p).map f := by
  rw [List.find?_map]
  have hpq : q ∘ f = p := funext h
  rw [hpq]

/-- `pendingIdsOf` only looks at ids and pending flags, so it is invariant
under maps preserving both. -/
theorem pendingIdsOf_map (l : List SimNode) (g : SimNode → SimNode)
    (hid : ∀ n, (g n).id = n.id)
    (hp : ∀ n, (g n).marking.pending = n.marking.pending) :
    pendingIdsOf (l.map g) = pendingIdsOf l := by
  induction l with
  | nil => rfl
  | cons x xs ih =>
      unfold pendingIdsOf at *
      rw [List.map_cons, List.filter_cons, List.filter_cons, hp]
      by_cases hx : x.marking.pending = true
      · rw [if_pos hx, if_pos hx, List.map_cons, List.map_cons, hid, ih]
      · rw [if_neg hx, if_neg hx, ih]

theorem revealChild_id (l : List SimNode) (n : SimNode) :
    (revealChild l n).id = n.id := by
  unfold revealChild
  split <;> first
    | rfl
    | (split <;> first | rfl | (split <;> rfl))

theorem revealChild_pending (l : List SimNode) (n : SimNode) :
    (revealChild l n).marking.pending = n.marking.pending := by
  unfold revealChild
  split <;> first
    | rfl
    | (split <;> first | rfl | (split <;> rfl))

theorem recountSimNode_id (edges : List Edge) (pendings : List String)
    (n : SimNode) : (recountSimNode edges pendings n).id = n.id := rfl

theorem recountSimNode_pending (edges : List Edge) (pendings : List String)
    (n : SimNode) :
    (recountSimNode edges pendings n).marking.pending = n.marking.pending := rfl

theorem fireSimNode_id (simEdges : List Edge) (node nd : SimNode) :
    (fireSimNode simEdges node nd).id = nd.id := rfl

theorem updateChildEvents_simNodes (st : Store) :
    (updateChildEvents st).simNodes =
      (st.simNodes.map (revealChild st.simNodes)).map
        (recountSimNode st.edges (pendingIdsOf st.simNodes)) := rfl

theorem updateChildEvents_edges (st : Store) :
    (updateChildEvents st).edges = st.edges := rfl

/-- What the recount pass actually establishes, for every node of the
updated state: the in-marking milestone count is the recount, and
`executable` equals `recount == 0` — regardless of `conditions` or
`included`. -/
theorem updateChildEvents_marking (st : Store) (T : SimNode)
    (hT : T ∈ (updateChildEvents st).simNodes) :
    T.marking.milestones =
      some ((msRecount st.edges (pendingIdsOf st.simNodes) T.id : Nat) : Int) ∧
    T.marking.executable =
      (msRecount st.edges (pendingIdsOf st.simNodes) T.id == 0) := by
  rw [updateChildEvents_simNodes] at hT
  rcases List.mem_map.1 hT with ⟨n, _, rfl⟩
  exact ⟨rfl, rfl⟩

theorem pendingIdsOf_updateChildEvents (st : Store) :
    pendingIdsOf (updateChildEvents st).simNodes = pendingIdsOf st.simNodes := by
  rw [updateChildEvents_simNodes]
  rw [pendingIdsOf_map _ _ (recountSimNode_id _ _) (recountSimNode_pending _ _)]
  rw [pendingIdsOf_map _ _ (revealChild_id _) (revealChild_pending _)]

theorem setSimulationFlow_nodes (st : Store) (v : Bool) :
    (setSimulationFlow st v).nodes = st.nodes := by
  unfold setSimulationFlow
  rw [log_nodes]

theorem setSimulationFlow_edges (st : Store) (v : Bool) :
    (setSimulationFlow st v).edges = st.edges := by
  unfold setSimulationFlow
  rw [log_edges]

/-- Entering simulation: the simulation copies are the mapped editor lists,
and the editor lists are untouched. -/
theorem toggle_on_fields (st : Store) (h : st.simulationFlow = false) :
    (onClickSimulationToggle st).simNodes =
      st.nodes.map (initSimNode st.nodes st.edges) ∧
    (onClickSimulationToggle st).simEdges =
      st.edges.map (fun edge => { edge with selected := false }) ∧
    (onClickSimulationToggle st).edges = st.edges ∧
    (onClickSimulationToggle st).nodes = st.nodes := by
  unfold onClickSimulationToggle
  rw [h]
  simp only [Bool.not_false, if_pos]
  refine ⟨?_, ?_, ?_, ?_⟩ <;>
    simp [setSimulationFlow_nodes, setSimulationFlow_edges]

theorem blockPred_false_iff (a b c d : Bool) :
    (a && (b || c && d)) = false ↔ ((a && b) = false ∧ (a && c && d) = false) := by
  cases a <;> cases b <;> cases c <;> cases d <;> decide

theorem blockPred_true_cases (a b c d : Bool) :
    (a && (b || c && d)) = true → ((a && b) = true ∨ (a && c && d) = true) := by
  cases a <;> cases b <;> cases c <;> cases d <;> decide

/-- C4 — On entering simulation, every node's marking is initialized with
`executable = included && conditions == 0 && milestones == 0` (conditions
counting incoming Condition edges, milestones counting incoming Milestone
edges with a currently pending source), `executed = false`, `spawned = false`
on subprocess nodes, and the node hidden exactly when its parent is a
subprocess — and the simulation node list is precisely the editor node list
mapped through this initialization. -/
theorem c4_initial_marking (st : Store) (hflow : st.simulationFlow = false)
    (n : Node) (_hn : n ∈ st.nodes) :
    (onClickSimulationToggle st).simNodes =
      st.nodes.map (initSimNode st.nodes st.edges) ∧
    (initSimNode st.nodes st.edges n).marking.executable =
      (n.data.marking.included &&
        (decide ((st.edges.filter (fun e =>
            e.target == n.id && e.type == "condition")).length = 0) &&
         decide ((st.edges.filter (fun e =>
            e.target == n.id && e.type == "milestone" &&
              st.nodes.any (fun p =>
                p.id == e.source && p.data.marking.pending))).length = 0))) ∧
    (initSimNode st.nodes st.edges n).marking.executed = false ∧
    (n.type = "subprocess" →
      (initSimNode st.nodes st.edges n).marking.spawned = some false) ∧
    (initSimNode st.nodes st.edges n).hidden =
      st.nodes.any (fun p => p.id == n.parentId && p.type == "subprocess") := by
  refine ⟨(toggle_on_fields st hflow).1, ?_, rfl, ?_, rfl⟩
  · show (n.data.marking.included &&
        !(st.edges.any (fun edge =>
          edge.target == n.id &&
            (edge.type == "condition" ||
              edge.type == "milestone" &&
                st.nodes.any (fun nd =>
                  nd.id == edge.source && nd.data.marking.pending))))) = _
    cases hinc : n.data.marking.included with
    | false => simp
    | true =>
      simp only [Bool.true_and]
      cases hany : st.edges.any (fun edge =>
          edge.target == n.id &&
            (edge.type == "condition" ||
              edge.type == "milestone" &&
                st.nodes.any (fun nd =>
                  nd.id == edge.source && nd.data.marking.pending))) with
      | false =>
        have hall := List.any_eq_false.1 hany
        have h1 : st.edges.filter (fun e =>
            e.target == n.id && e.type == "condition") = [] := by
          rw [List.filter_eq_nil_iff]
          intro e he
          have hb := Bool.eq_false_iff.2 (hall e he)
          have := (blockPred_false_iff _ _ _ _).1 hb
          rw [this.1]
          simp
        have h2 : st.edges.filter (fun e =>
            e.target == n.id && e.type == "milestone" &&
              st.nodes.any (fun p =>
                p.id == e.source && p.data.marking.pending)) = [] := by
          rw [List.filter_eq_nil_iff]
          intro e he
          have hb := Bool.eq_false_iff.2 (hall e he)
          have := (blockPred_false_iff _ _ _ _).1 hb
          rw [this.2]
          simp
        rw [h1, h2]
        simp
      | true =>
        rcases List.any_eq_true.1 hany with ⟨e, he, hbe⟩
        rcases blockPred_true_cases _ _ _ _ hbe with hc | hm
        · have hmem : e ∈ st.edges.filter (fun e =>
              e.target == n.id && e.type == "condition") :=
            List.mem_filter.2 ⟨he, hc⟩
          have hne : (st.edges.filter (fun e =>
              e.target == n.id && e.type == "condition")).length ≠ 0 := by
            intro h0
            rw [List.length_eq_zero] at h0
            rw [h0] at hmem
            cases hmem
          simp [hne]
        · have hmem : e ∈ st.edges.filter (fun e =>
              e.target == n.id && e.type == "milestone" &&
                st.nodes.any (fun p =>
                  p.id == e.source && p.data.marking.pending)) :=
            List.mem_filter.2 ⟨he, hm⟩
          have hne : (st.edges.filter (fun e =>
              e.target == n.id && e.type == "milestone" &&
                st.nodes.any (fun p =>
                  p.id == e.source && p.data.marking.pending))).length ≠ 0 := by
            intro h0
            rw [List.length_eq_zero] at h0
            rw [h0] at hmem
            cases hmem
          simp [hne]
  · intro hsub
    show (if n.type == "subprocess" then some false else none) = some false
    rw [if_pos]
    exact (beq_iff_eq).2 hsub

/-- C2 (amended) — After a firing of an executable event completes, every
simulation node `T` carries the global milestone recount *inside its marking
object* (`marking.milestones`), and its `executable` flag equals
`recount == 0` — the recount being the number of incoming Milestone edges
whose source is currently pending.  (The node-level `data.milestones`
counter is *not* refreshed, and `conditions`/`included` play no part in the
refreshed `executable`.) -/
theorem c2_closure_recount (st : Store) (node : SimNode)
    (h : node.marking.executable = true) (T : SimNode)
    (hT : T ∈ (onNodeClickSimulation st node).simNodes) :
    T.marking.milestones =
      some ((msRecount (onNodeClickSimulation st node).edges
        (pendingIdsOf (onNodeClickSimulation st node).simNodes) T.id : Nat) : Int) ∧
    T.marking.executable =
      (msRecount (onNodeClickSimulation st node).edges
        (pendingIdsOf (onNodeClickSimulation st node).simNodes) T.id == 0) := by
  have hstep : onNodeClickSimulation st node =
      updateChildEvents
        { st with simNodes := st.simNodes.map (fireSimNode st.simEdges node) } := by
    unfold onNodeClickSimulation
    rw [h]
    rfl
  rw [hstep] at hT ⊢
  rw [updateChildEvents_edges, pendingIdsOf_updateChildEvents]
  exact updateChildEvents_marking _ T hT

/-- C5 — Condition blocks firing: with a Condition edge from `A` to `B`,
`B` included and nothing else blocking `B` (and `A` itself unblocked so it
can fire), `B` is not executable when simulation starts, and becomes
executable after `A` fires through `onNodeClickSimulation`. -/
theorem c5_condition_blocks (st : Store) (a b : String) (A B : Node)
    (ce : Edge) (nA : SimNode)
    (hflow : st.simulationFlow = false)
    (hFA : st.nodes.find? (fun nd => nd.id == a) = some A)
    (hFB : st.nodes.find? (fun nd => nd.id == b) = some B)
    (hAinc : A.data.marking.included = true)
    (_hBinc : B.data.marking.included = true)
    (hce : ce ∈ st.edges)
    (hceTy : ce.type = "condition")
    (_hceSrc : ce.source = a)
    (hceTgt : ce.target = b)
    (hnoBlockA : ∀ e ∈ st.edges, e.target = a →
      e.type ≠ "condition" ∧ e.type ≠ "milestone")
    (hnoMsB : ∀ e ∈ st.edges, e.target = b → e.type ≠ "milestone")
    (hnA : (onClickSimulationToggle st).simNodes.find?
      (fun nd => nd.id == a) = some nA) :
    nA.marking.executable = true ∧
    ((onClickSimulationToggle st).simNodes.find? (fun nd => nd.id == b)).map
      (fun nd => nd.marking.executable) = some false ∧
    ((onNodeClickSimulation (onClickSimulationToggle st) nA).simNodes.find?
      (fun nd => nd.id == b)).map (fun nd => nd.marking.executable) = some true := by
  obtain ⟨hsimN, hsimE, hedges, hnodes⟩ := toggle_on_fields st hflow
  have hAid : A.id = a := by
    have h := List.find?_some hFA
    simpa using h
  have hBid : B.id = b := by
    have h := List.find?_some hFB
    simpa using h
  have hfindmap : ∀ i : String,
      (onClickSimulationToggle st).simNodes.find? (fun nd => nd.id == i) =
        (st.nodes.find? (fun nd => nd.id == i)).map
          (initSimNode st.nodes st.edges) := by
    intro i
    rw [hsimN]
    exact find?_map_of_id _ _ _ _ (fun nd => rfl)
  have hnAval : nA = initSimNode st.nodes st.edges A := by
    have h := hnA
    rw [hfindmap a, hFA] at h
    exact (Option.some.inj h).symm
  have hAexec : (initSimNode st.nodes st.edges A).marking.executable = true := by
    show (A.data.marking.included && !(st.edges.any (fun edge =>
      edge.target == A.id &&
        (edge.type == "condition" ||
          edge.type == "milestone" &&
            st.nodes.any (fun nd =>
              nd.id == edge.source && nd.data.marking.pending))))) = true
    rw [hAinc]
    have hno : st.edges.any (fun edge =>
        edge.target == A.id &&
          (edge.type == "condition" ||
            edge.type == "milestone" &&
              st.nodes.any (fun nd =>
                nd.id == edge.source && nd.data.marking.pending))) = false := by
      rw [List.any_eq_false]
      intro e he
      by_cases ht : (e.target == A.id) = true
      · obtain ⟨hc, hm⟩ := hnoBlockA e he (by rw [← hAid]; exact beq_iff_eq.1 ht)
        have hcb : (e.type == "condition") = false := beq_eq_false_iff_ne.2 hc
        have hmb : (e.type == "milestone") = false := beq_eq_false_iff_ne.2 hm
        simp [ht, hcb, hmb]
      · have ht2 : (e.target == A.id) = false := Bool.eq_false_iff.2 ht
        simp [ht2]
    rw [hno]
    rfl
  have hex : nA.marking.executable = true := by rw [hnAval]; exact hAexec
  refine ⟨hex, ?_, ?_⟩
  · rw [hfindmap b, hFB]
    simp only [Option.map_some']
    congr 1
    show (B.data.marking.included && !(st.edges.any (fun edge =>
      edge.target == B.id &&
        (edge.type == "condition" ||
          edge.type == "milestone" &&
            st.nodes.any (fun nd =>
              nd.id == edge.source && nd.data.marking.pending))))) = false
    have hanyb : st.edges.any (fun edge =>
        edge.target == B.id &&
          (edge.type == "condition" ||
            edge.type == "milestone" &&
              st.nodes.any (fun nd =>
                nd.id == edge.source && nd.data.marking.pending))) = true := by
      rw [List.any_eq_true]
      refine ⟨ce, hce, ?_⟩
      have h1 : (ce.target == B.id) = true := beq_iff_eq.2 (by rw [hceTgt, hBid])
      have h2 : (ce.type == "condition") = true := beq_iff_eq.2 hceTy
      simp [h1, h2]
    rw [hanyb]
    simp
  · have hstep : onNodeClickSimulation (onClickSimulationToggle st) nA =
        updateChildEvents
          { onClickSimulationToggle st with
            simNodes := (onClickSimulationToggle st).simNodes.map
              (fireSimNode (onClickSimulationToggle st).simEdges nA) } := by
      unfold onNodeClickSimulation
      rw [hex]
      rfl
    rw [hstep, updateChildEvents_simNodes]
    have hrecs : ({ onClickSimulationToggle st with
        simNodes := (onClickSimulationToggle st).simNodes.map
          (fireSimNode (onClickSimulationToggle st).simEdges nA) } : Store).simNodes =
        (onClickSimulationToggle st).simNodes.map
          (fireSimNode (onClickSimulationToggle st).simEdges nA) := rfl
    have hrece : ({ onClickSimulationToggle st with
        simNodes := (onClickSimulationToggle st).simNodes.map
          (fireSimNode (onClickSimulationToggle st).simEdges nA) } : Store).edges =
        st.edges := hedges
    rw [hrecs, hrece, hsimN]
    rw [find?_map_of_id _ _ _ (fun nd => nd.id == b)
      (fun nd => by rw [recountSimNode_id])]
    rw [find?_map_of_id _ _ _ (fun nd => nd.id == b)
      (fun nd => by rw [revealChild_id])]
    rw [find?_map_of_id _ _ _ (fun nd => nd.id == b)
      (fun nd => by rw [fireSimNode_id])]
    rw [find?_map_of_id _ _ _ (fun nd => nd.id == b) (fun nd => rfl)]
    rw [hFB]
    simp only [Option.map_some']
    congr 1
    have hxid : ∀ (x : SimNode), x.id = b →
        ∀ (P : List String),
          (recountSimNode st.edges P x).marking.executable = true := by
      intro x hx P
      show (msRecount st.edges P x.id == 0) = true
      have hms0 : msRecount st.edges P x.id = 0 := by
        unfold msRecount
        rw [List.length_eq_zero, List.filter_eq_nil_iff]
        intro e he
        by_cases ht : (e.target == x.id) = true
        · have h3 := hnoMsB e he (by rw [← hx]; exact beq_iff_eq.1 ht)
          have hmb : (e.type == "milestone") = false := beq_eq_false_iff_ne.2 h3
          simp [hmb]
        · have ht2 : (e.target == x.id) = false := Bool.eq_false_iff.2 ht
          simp [ht2]
      rw [hms0]
      rfl
    apply hxid
    rw [revealChild_id, fireSimNode_id]
    show (initSimNode st.nodes st.edges B).id = b
    rw [show (initSimNode st.nodes st.edges B).id = B.id from rfl, hBid]

theorem alreadyExistsEdge_fst (st : Store) (s t ty : String) :
    (alreadyExistsEdge st s t ty).1 = tripleExists st.edges s t ty := rfl

theorem alreadyExistsEdge_snd_edges (st : Store) (s t ty : String) :
    ((alreadyExistsEdge st s t ty).2).edges = st.edges := by
  show (if st.edges.any (fun edge =>
      edge.source == s && edge.target == t && edge.type == ty) then
    log st (relationExistsMsg s t ty) else st).edges = st.edges
  split <;> simp [log_edges]

theorem alreadyExistsEdge_snd_nodes (st : Store) (s t ty : String) :
    ((alreadyExistsEdge st s t ty).2).nodes = st.nodes := by
  show (if st.edges.any (fun edge =>
      edge.source == s && edge.target == t && edge.type == ty) then
    log st (relationExistsMsg s t ty) else st).nodes = st.nodes
  split <;> simp [log_nodes]

theorem tripleCount_eq_zero_of_not_exists (edges : List Edge) (s t ty : String)
    (h : tripleExists edges s t ty = false) : tripleCount edges s t ty = 0 := by
  unfold tripleExists at h
  unfold tripleCount
  rw [List.countP_eq_zero]
  exact List.any_eq_false.1 h

/-- Inserting an edge whose kind-triple is not yet present (or whose type is
not a relation kind at all) preserves the at-most-one-per-kind invariant,
whether it goes to the front or to the back. -/
theorem edgeKindInvariant_insert (es : List Edge) (e : Edge)
    (inv : edgeKindInvariant es)
    (h : e.type ∈ relationKinds → tripleCount es e.source e.target e.type = 0) :
    edgeKindInvariant (e :: es) ∧ edgeKindInvariant (es ++ [e]) := by
  have key : ∀ x, x = e ∨ x ∈ es → x.type ∈ relationKinds →
      (List.countP (fun edge =>
        edge.source == x.source && edge.target == x.target &&
          edge.type == x.type) es) +
        (if (e.source == x.source && e.target == x.target &&
          e.type == x.type) = true then 1 else 0) ≤ 1 := by
    intro x hx hkind
    rcases hx with rfl | hmem
    · rw [if_pos (by simp)]
      have h0 := h hkind
      unfold tripleCount at h0
      omega
    · by_cases hmatch : (e.source == x.source && e.target == x.target &&
          e.type == x.type) = true
      · have hs : e.source = x.source := by
          have := hmatch
          simp only [Bool.and_eq_true, beq_iff_eq] at this
          exact this.1.1
        have ht : e.target = x.target := by
          have := hmatch
          simp only [Bool.and_eq_true, beq_iff_eq] at this
          exact this.1.2
        have hty : e.type = x.type := by
          have := hmatch
          simp only [Bool.and_eq_true, beq_iff_eq] at this
          exact this.2
        have h0 : tripleCount es e.source e.target e.type = 0 :=
          h (by rw [hty]; exact hkind)
        have hcongr : List.countP (fun edge =>
            edge.source == x.source && edge.target == x.target &&
              edge.type == x.type) es =
            tripleCount es e.source e.target e.type := by
          unfold tripleCount
          rw [hs, ht, hty]
        rw [hcongr, h0, if_pos hmatch]
      · rw [if_neg hmatch]
        have := inv x hmem hkind
        unfold tripleCount at this
        omega
  constructor
  · intro x hx hkind
    unfold tripleCount
    rw [List.countP_cons]
    have := key x (by
      rcases List.mem_cons.1 hx with rfl | hmem
      · exact Or.inl rfl
      · exact Or.inr hmem) hkind
    omega
  · intro x hx hkind
    unfold tripleCount
    rw [List.countP_append]
    have hone : List.countP (fun edge =>
        edge.source == x.source && edge.target == x.target &&
          edge.type == x.type) [e] =
        (if (e.source == x.source && e.target == x.target &&
          e.type == x.type) = true then 1 else 0) := by
      simp [List.countP_cons]
    rw [hone]
    have := key x (by
      rcases List.mem_append.1 hx with hmem | hself
      · exact Or.inr hmem
      · rcases List.mem_singleton.1 hself with rfl
        exact Or.inl rfl) hkind
    omega

/-- Every relation kind is a truthy (non-empty) type string. -/
theorem relationKinds_ne_empty (ty : String) (h : ty ∈ relationKinds) :
    ty ≠ "" := by
  intro he
  rw [he] at h
  exact absurd h (by decide)

/-- `addEdge` never violates the at-most-one-per-kind invariant: duplicates
of a kind-triple are rejected before insertion. -/
theorem addEdge_preserves_invariant (st : Store) (e : Edge)
    (inv : edgeKindInvariant st.edges) :
    edgeKindInvariant (addEdge st e).edges := by
  unfold addEdge
  split
  · next hdup =>
      rw [alreadyExistsEdge_snd_edges]
      exact inv
  · next hno =>
      have hfree : e.type ∈ relationKinds →
          tripleCount st.edges e.source e.target e.type = 0 := by
        intro hkind
        apply tripleCount_eq_zero_of_not_exists
        by_contra hex
        have hex2 : tripleExists st.edges e.source e.target e.type = true := by
          cases hx : tripleExists st.edges e.source e.target e.type
          · exact absurd hx hex
          · rfl
        apply hno
        refine ⟨?_, ?_⟩
        · have := relationKinds_ne_empty e.type hkind
          simp [this]
        · rw [alreadyExistsEdge_fst]
          exact hex2
      have hlogedges : (log st ("Added " ++ e.type ++ " relation from " ++
          e.source ++ " to " ++ e.target)).edges = st.edges := log_edges _ _
      split
      · next =>
          show edgeKindInvariant (e :: _)
          rw [hlogedges]
          exact (edgeKindInvariant_insert st.edges e inv hfree).1
      · next =>
          show edgeKindInvariant (_ ++ [e])
          rw [hlogedges]
          exact (edgeKindInvariant_insert st.edges e inv hfree).2

theorem onConnect_preserves_invariant (st : Store) (source target : String)
    (inv : edgeKindInvariant st.edges) :
    edgeKindInvariant (onConnect st source target).edges := by
  unfold onConnect
  split
  · exact inv
  · split
    · rw [alreadyExistsEdge_snd_edges]
      exact inv
    · split
      · rw [alreadyExistsEdge_snd_edges]
        exact inv
      · split
        · rw [log_edges, alreadyExistsEdge_snd_edges]
          exact inv
        · apply addEdge_preserves_invariant
          rw [alreadyExistsEdge_snd_edges]
          exact inv

/-- C6 — `addEdge` and `onConnect` preserve the at-most-one-relation-per-kind
invariant, and an `addEdge` whose `(source, target, type)` triple already
exists is a no-op on the edge list that logs the named rejection message.
(Both functions are total Lean functions: no code path raises an
exception.) -/
theorem c6_duplicate_rejection (st : Store) (e : Edge) :
    (edgeKindInvariant st.edges → edgeKindInvariant (addEdge st e).edges) ∧
    (e.type ≠ "" → tripleExists st.edges e.source e.target e.type = true →
      (addEdge st e).edges = st.edges ∧
      (addEdge st e).logs = st.logs ++
        [relationExistsMsg e.source e.target e.type]) ∧
    (∀ source target : String, edgeKindInvariant st.edges →
      edgeKindInvariant (onConnect st source target).edges) := by
  refine ⟨addEdge_preserves_invariant st e, ?_, ?_⟩
  · intro hty hdup
    have hcond : (e.type != "") = true ∧
        (alreadyExistsEdge st e.source e.target e.type).1 = true := by
      constructor
      · simp [hty]
      · rw [alreadyExistsEdge_fst]
        exact hdup
    have hstep : addEdge st e = (alreadyExistsEdge st e.source e.target e.type).2 := by
      unfold addEdge
      rw [if_pos]
      exact ⟨hcond.1, hcond.2⟩
    have hsnd : (alreadyExistsEdge st e.source e.target e.type).2 =
        log st (relationExistsMsg e.source e.target e.type) := by
      show (if st.edges.any (fun edge =>
          edge.source == e.source && edge.target == e.target &&
            edge.type == e.type) then
        log st (relationExistsMsg e.source e.target e.type) else st) = _
      rw [if_pos]
      exact hdup
    rw [hstep, hsnd]
    refine ⟨log_edges _ _, ?_⟩
    exact log_logs_of_mem st _ 'I'
      (relationExistsMsg_mem_I e.source e.target e.type) (by decide)
  · intro source target inv
    exact onConnect_preserves_invariant st source target inv

/-- C7 (amended) — the `onConnect` path does reject a Spawn connection whose
target is not a Subprocess: nodes and edges are untouched and the named
rejection is logged. -/
theorem c7_onconnect_spawn_rejection (st : Store) (source target : String)
    (targetNode : Node)
    (hty : st.relationType = "spawn")
    (hs : source ≠ "") (ht : target ≠ "")
    (hnx : tripleExists st.edges source target "spawn" = false)
    (hfind : getNode st target = some targetNode)
    (hnotsub : targetNode.type ≠ "subprocess") :
    (onConnect st source target).edges = st.edges ∧
    (onConnect st source target).nodes = st.nodes ∧
    (onConnect st source target).logs = st.logs ++
      [invalidSpawnTargetMsg source target] := by
  have hinv : isValidSpawnTarget targetNode st.relationType = false := by
    unfold isValidSpawnTarget
    rw [hty]
    have h1 : (("spawn" : String) != "spawn") = false := by decide
    have h2 : (targetNode.type == "subprocess") = false :=
      beq_eq_false_iff_ne.2 hnotsub
    rw [h1, h2]
    rfl
  have hnotex : (alreadyExistsEdge st source target st.relationType).1 = false := by
    rw [alreadyExistsEdge_fst, hty]
    exact hnx
  have hsnd : (alreadyExistsEdge st source target st.relationType).2 = st := by
    show (if st.edges.any (fun edge =>
        edge.source == source && edge.target == target &&
          edge.type == st.relationType) then
      log st (relationExistsMsg source target st.relationType) else st) = st
    rw [if_neg]
    intro hx
    rw [show (st.edges.any (fun edge =>
      edge.source == source && edge.target == target &&
        edge.type == st.relationType)) =
      (alreadyExistsEdge st source target st.relationType).1 from rfl] at hx
    rw [hnotex] at hx
    cases hx
  have hstep : onConnect st source target =
      log st (invalidSpawnTargetMsg source target) := by
    unfold onConnect
    rw [if_neg]
    · rw [hsnd]
      have hx0 : (alreadyExistsEdge st source target st.relationType).1 = false :=
        hnotex
      split
      · next hx => rw [hx0] at hx; cases hx
      · split
        · next hg => rw [hfind] at hg; cases hg
        · next tn hg =>
            rw [hfind] at hg
            cases hg
            rw [if_pos]
            rw [hinv]
            rfl
    · push_neg
      refine ⟨?_, hs, ht⟩
      rw [hty]
      decide
  rw [hstep]
  refine ⟨log_edges _ _, log_nodes _ _, ?_⟩
  exact log_logs_of_mem st _ 'I'
    (invalidSpawnTargetMsg_mem_I source target) (by decide)

/-- Allocating event ids from a single-frontier list hands out consecutive
suffixes and advances the frontier. -/
theorem allocEventIds_frontier (n : Nat) : ∀ k : Nat,
    allocEventIds n [k] =
      ((List.range n).map (fun i => "e" ++ toString (k + i)), [k + n]) := by
  induction n with
  | zero => intro k; rfl
  | succ n ih =>
      intro k
      have hstep : createNodeId "event"
          { nextNodeId := [k], nextGroupId := [], nextSubprocessId := [] } =
          some ("e" ++ toString k,
            { nextNodeId := [k + 1], nextGroupId := [], nextSubprocessId := [] }) := by
        rfl
      simp only [allocEventIds]
      rw [hstep]
      show (("e" ++ toString k) :: (allocEventIds n [k + 1]).1,
        (allocEventIds n [k + 1]).2) = _
      rw [ih (k + 1)]
      show (("e" ++ toString k) ::
          (List.range n).map (fun i => "e" ++ toString (k + 1 + i)),
        [k + 1 + n]) = _
      rw [List.range_succ_eq_map]
      rw [List.map_cons, List.map_map]
      have hfun : ((fun i => "e" ++ toString (k + i)) ∘ Nat.succ) =
          (fun i => "e" ++ toString (k + 1 + i)) := by
        funext i
        show "e" ++ toString (k + (i + 1)) = "e" ++ toString (k + 1 + i)
        rw [show k + (i + 1) = k + 1 + i by omega]
      rw [hfun]
      rw [show k + 1 + n = k + (n + 1) by omega]
      rw [show k + 0 = k by omega]

theorem createNodeId_event (c : IdCounters) :
    createNodeId "event" c =
      some ("e" ++ toString (c.nextNodeId.headD 0),
        { c with nextNodeId :=
            if c.nextNodeId.tail = [] then [c.nextNodeId.headD 0 + 1]
            else c.nextNodeId.tail }) := by
  unfold createNodeId
  rw [if_pos rfl]

/-- C8 — The allocator scenario of the spec: `N ≥ 1` allocations from the
fresh event allocator `[0]` hand out `e0 … e(N-1)` and leave the frontier at
`[N]`; deleting the event with the smallest suffix (`e0`) merges `0` back,
re-sorted ascending, and the next allocation returns the freed suffix
first. -/
theorem c8_allocator_reuse (N : Nat) (_hN : 1 ≤ N) (st : Store)
    (hc : st.nextNodeId = [N]) :
    (allocEventIds N [0]).1 = (List.range N).map (fun i => "e" ++ toString i) ∧
    (allocEventIds N [0]).2 = [N] ∧
    (returnDeletedIds st [sampleEvent "e0"]).nextNodeId = [0, N] ∧
    (createNodeId "event"
      { nextNodeId := [0, N]
        nextGroupId := st.nextGroupId
        nextSubprocessId := st.nextSubprocessId }).map Prod.fst =
      some "e0" := by
  have hfr := allocEventIds_frontier N 0
  have hsort : sortAsc ([0] ++ [N]) = [0, N] := by
    show List.insertionSort (· ≤ ·) [0, N] = [0, N]
    simp [List.insertionSort, List.orderedInsert, Nat.zero_le]
  refine ⟨?_, ?_, ?_, ?_⟩
  · rw [hfr]
    apply List.map_congr_left
    intro i _
    rw [Nat.zero_add]
  · rw [hfr]
    rw [Nat.zero_add]
  · show sortAsc ((([sampleEvent "e0"].filter (fun node =>
        node.type == "event")).map (fun node => idSuffix node.id)) ++
        st.nextNodeId) = [0, N]
    rw [hc]
    have hfilter : ([sampleEvent "e0"].filter (fun node =>
        node.type == "event")).map (fun node => idSuffix node.id) = [0] := by
      decide
    rw [hfilter]
    exact hsort
  · rw [createNodeId_event]
    simp only [Option.map_some']
    rw [show (([0, N] : List Nat).headD 0) = 0 from rfl]
    decide

theorem createNodeId_nest (c : IdCounters) :
    createNodeId "nest" c =
      some ("n" ++ toString (c.nextGroupId.headD 0),
        { c with nextGroupId :=
            if c.nextGroupId.tail = [] then [c.nextGroupId.headD 0 + 1]
            else c.nextGroupId.tail }) := by
  unfold createNodeId
  rw [if_neg (by decide), if_pos rfl]

theorem createNodeId_subprocess (c : IdCounters) :
    createNodeId "subprocess" c =
      some ("s" ++ toString (c.nextSubprocessId.headD 0),
        { c with nextSubprocessId :=
            if c.nextSubprocessId.tail = [] then [c.nextSubprocessId.headD 0 + 1]
            else c.nextSubprocessId.tail }) := by
  unfold createNodeId
  rw [if_neg (by decide), if_neg (by decide), if_pos rfl]

/-- C9 (amended) — A Nest/Subprocess type conversion takes the new id from
the head of the target kind's allocator and returns the original numeral to
the source kind's allocator by *prepending* it to the front of the available
list (no merge-and-re-sort), so the freed suffix is the next one handed out
for the source kind. -/
theorem c9_conversion_prepends (st : Store) (currentNode updatedNode : Node) :
    ((convertNestToSubprocess st currentNode updatedNode).2).nextGroupId =
      idSuffix currentNode.id :: st.nextGroupId ∧
    ((convertNestToSubprocess st currentNode updatedNode).1).id =
      "s" ++ toString (st.nextSubprocessId.headD 0) ∧
    (createNodeId "nest"
        (storeCounters (convertNestToSubprocess st currentNode updatedNode).2)).map
      Prod.fst = some ("n" ++ toString (idSuffix currentNode.id)) ∧
    ((convertSubprocessToNest st currentNode updatedNode).2).nextSubprocessId =
      idSuffix currentNode.id :: st.nextSubprocessId ∧
    ((convertSubprocessToNest st currentNode updatedNode).1).id =
      "n" ++ toString (st.nextGroupId.headD 0) ∧
    (createNodeId "subprocess"
        (storeCounters (convertSubprocessToNest st currentNode updatedNode).2)).map
      Prod.fst = some ("s" ++ toString (idSuffix currentNode.id)) := by
  refine ⟨rfl, rfl, ?_, rfl, rfl, ?_⟩
  · rw [createNodeId_nest]
    rfl
  · rw [createNodeId_subprocess]
    rfl

/-- C9 (counterexample) — With nests `n0` deleted and `n1` present
(`nextGroupId = [0, 2]`), converting `n1` to a subprocess leaves the nest
allocator at `[1, 0, 2]`: not sorted ascending, and the next nest allocation
returns `n1`, not the smallest available suffix `0`. -/
theorem c9_conversion_not_sorted :
    ((convertNestToSubprocess c9Store (nestNode "n1")
        { nestNode "n1" with type := "subprocess" }).2).nextGroupId = [1, 0, 2] ∧
    ¬ List.Sorted (· ≤ ·) ([1, 0, 2] : List Nat) ∧
    (createNodeId "nest"
        (storeCounters (convertNestToSubprocess c9Store (nestNode "n1")
          { nestNode "n1" with type := "subprocess" }).2)).map Prod.fst =
      some "n1" := by
  refine ⟨by decide, ?_, by decide⟩
  show ¬ List.Pairwise (· ≤ ·) ([1, 0, 2] : List Nat)
  decide

/-- C3 — Exclusion is *not* terminal in this code: on a store with a single
event `e0` carrying a self-Exclude, the toggled simulation marks `e0`
executable; firing it sets `included = false` (and, transiently,
`executable = false`), but the closure pass of the same firing recomputes
`executable` from the milestone recount alone, so the firing completes with
`included = false` yet `executable = true` — no Include intervened. -/
theorem c3_exclusion_not_terminal :
    ((onClickSimulationToggle c3Store).simNodes.find? (fun nd => nd.id == "e0")).map
      (fun nd => nd.marking.executable) = some true ∧
    ((onClickSimulationToggle c3Store).simNodes.find? (fun nd => nd.id == "e0")).map
      (fun nA =>
        ((onNodeClickSimulation (onClickSimulationToggle c3Store) nA).simNodes.find?
          (fun nd => nd.id == "e0")).map
          (fun nd => (nd.marking.included, nd.marking.executable,
            nd.marking.executed))) =
      some (some (false, true, true)) := by
  exact ⟨by decide, by decide⟩

/-- C2 (counterexample) — Firing the isolated executable event `e0` of
`c2Store` (where a Condition `e1 → e2` still blocks `e2`) yields a state
violating the claimed post-firing property: the closure pass sets
`e2.executable = true` although `e2.conditions = 1`. -/
theorem c2_claimed_invariant_fails :
    ((onClickSimulationToggle c2Store).simNodes.find? (fun nd => nd.id == "e0")).map
      (fun nA => decide (claimedPostFiringInvariant
        (onNodeClickSimulation (onClickSimulationToggle c2Store) nA))) =
      some false := by
  decide

/-- C10 — The relation-endpoint label lookup of `genGraph` can fail and the
failure is reachable from the public entry point `visualGen`: a relation
line naming the unknown label `x` makes `nodes.find(...)` return no node,
and the subsequent dereference is the embedded `TypeError`. -/
theorem c10_lookup_failure_reachable :
    visualGen "R\n;\nSec\n;\n;\nx -->* y" =
      Except.error "TypeError: relation source label not found" := by
  decide

/-- C1 — Round trip of the guarded fixture: `writeCode` serializes the
Condition's guard `x>0` into the relation line, but parsing the generated
code back with `visualGen` yields the relation with an empty guard: the
parser never reads the guard suffix of a relation line, so
`visualGen ∘ writeCode` does not reproduce the relations' guards. -/
theorem c1_roundtrip_drops_guard :
    (writeCode nsC1 esC1 rolesC1 "Public").map Prod.snd =
      Except.ok ("P\n;\nPublic\n;\n(e0:n0) (Public) [?] [P]\n(e1:n1) (Public) [?] [P]\n;\ne0 -->* e1 [x>0]") ∧
    ((writeCode nsC1 esC1 rolesC1 "Public").bind (fun r => visualGen r.2)).map
      (fun v => v.edges.map (fun e => (e.type, e.source, e.target, e.guard))) =
      Except.ok [("condition", "e0", "e1", "")] ∧
    esC1.map (fun e => (e.type, e.source, e.target, e.guard)) =
      [("condition", "e0", "e1", "x>0")] := by
  exact ⟨by decide, by decide, by decide⟩

theorem c2_closure_recount_witness :
    simE0.marking.executable = true ∧
    simE2After ∈
      (onNodeClickSimulation (onClickSimulationToggle c2Store) simE0).simNodes ∧
    (simE2After.marking.milestones =
      some ((msRecount
        (onNodeClickSimulation (onClickSimulationToggle c2Store) simE0).edges
        (pendingIdsOf
          (onNodeClickSimulation (onClickSimulationToggle c2Store) simE0).simNodes)
        simE2After.id : Nat) : Int) ∧
     simE2After.marking.executable =
      (msRecount
        (onNodeClickSimulation (onClickSimulationToggle c2Store) simE0).edges
        (pendingIdsOf
          (onNodeClickSimulation (onClickSimulationToggle c2Store) simE0).simNodes)
        simE2After.id == 0)) :=
  ⟨rfl, by decide,
    c2_closure_recount (onClickSimulationToggle c2Store) simE0 rfl simE2After
      (by decide)⟩

theorem c4_initial_marking_witness :
    c2Store.simulationFlow = false ∧
    sampleEvent "e0" ∈ c2Store.nodes ∧
    (onClickSimulationToggle c2Store).simNodes =
      c2Store.nodes.map (initSimNode c2Store.nodes c2Store.edges) :=
  ⟨rfl, by decide,
    (c4_initial_marking c2Store rfl (sampleEvent "e0") (by decide)).1⟩

theorem c5_condition_blocks_witness :
    simE0.marking.executable = true ∧
    ((onClickSimulationToggle c5Store).simNodes.find? (fun nd => nd.id == "e1")).map
      (fun nd => nd.marking.executable) = some false ∧
    ((onNodeClickSimulation (onClickSimulationToggle c5Store) simE0).simNodes.find?
      (fun nd => nd.id == "e1")).map (fun nd => nd.marking.executable) =
      some true :=
  c5_condition_blocks c5Store "e0" "e1" (sampleEvent "e0") (sampleEvent "e1")
    (sampleRelation "condition" "e0" "e1") simE0 rfl (by decide) (by decide) rfl
    rfl (by decide) rfl rfl rfl (by decide) (by decide) (by decide)

theorem c6_duplicate_rejection_witness :
    (sampleRelation "condition" "e0" "e1").type ≠ "" ∧
    tripleExists c6Store.edges "e0" "e1" "condition" = true ∧
    ((addEdge c6Store (sampleRelation "condition" "e0" "e1")).edges =
        c6Store.edges ∧
      (addEdge c6Store (sampleRelation "condition" "e0" "e1")).logs =
        c6Store.logs ++ [relationExistsMsg "e0" "e1" "condition"]) :=
  ⟨by decide, by decide,
    (c6_duplicate_rejection c6Store (sampleRelation "condition" "e0" "e1")).2.1
      (by decide) (by decide)⟩

/-- C7 (counterexample) — the claim does not hold of every mutating path:
`addEdge` performs no spawn-target validation, so inserting a Spawn relation
targeting the plain event `e1` goes through and changes the edge list (no
no-op, no rejection). -/
theorem c7_addEdge_no_spawn_validation :
    (addEdge c7Store (sampleRelation "spawn" "e0" "e1")).edges =
      [sampleRelation "spawn" "e0" "e1"] ∧
    c7Store.edges = [] ∧
    (sampleEvent "e1").type ≠ "subprocess" :=
  ⟨by decide, rfl, by decide⟩

theorem c7_onconnect_spawn_rejection_witness :
    c7wStore.relationType = "spawn" ∧
    getNode c7wStore "e1" = some (sampleEvent "e1") ∧
    ((onConnect c7wStore "e0" "e1").edges = c7wStore.edges ∧
      (onConnect c7wStore "e0" "e1").nodes = c7wStore.nodes ∧
      (onConnect c7wStore "e0" "e1").logs =
        c7wStore.logs ++ [invalidSpawnTargetMsg "e0" "e1"]) :=
  ⟨rfl, by decide,
    c7_onconnect_spawn_rejection c7wStore "e0" "e1" (sampleEvent "e1") rfl
      (by decide) (by decide) (by decide) (by decide) (by decide)⟩

theorem c8_allocator_reuse_witness :
    1 ≤ 1 ∧ c8wStore.nextNodeId = [1] ∧
    ((returnDeletedIds c8wStore [sampleEvent "e0"]).nextNodeId = [0, 1] ∧
      (createNodeId "event"
        { nextNodeId := [0, 1]
          nextGroupId := c8wStore.nextGroupId
          nextSubprocessId := c8wStore.nextSubprocessId }).map Prod.fst =
        some "e0") :=
  ⟨by decide, rfl,
    ⟨(c8_allocator_reuse 1 (by decide) c8wStore rfl).2.2.1,
      (c8_allocator_reuse 1 (by decide) c8wStore rfl).2.2.2⟩⟩
